import Mathlib

/-!
# Verification of the applicant-processor email pipeline

Shallow embedding, in Lean 4, of the core of the `applicant-processor`
repository:

* `src/utils/parser.js` — the `EmailParser` class: classification
  (`isLinkedInApplication`) and field extraction
  (`parseLinkedInApplication` with its per-field extractors and
  validators);
* `src/utils/storage.js` — the `StorageManager` processing ledger
  (`isProcessed`, `markProcessed`, `cleanupOldRecords`);
* `src/main.js` — the `ApplicantProcessor` orchestrator
  (`processMessage`, `processEmails`, the contact-info merge) together
  with the contact-field normalization of
  `src/services/openai.js` (`extractContactInfo`).

JavaScript regular expressions are embedded as data (`RE`) interpreted
by a fuel-based backtracking engine (`reRun`) whose result order mirrors
the backtracking priority of the JS engine (ordered alternation, greedy
and lazy quantifiers, word boundaries, multiline anchors, lookahead),
so that `jsMatch`, `reTest`, `replaceAllRe` and `matchAllFull` compute
`String.prototype.match`, `RegExp.prototype.test` and
`String.prototype.replace` on the embedded patterns.  The fuel is an
upper bound on the depth of the backtracking search, which strictly
decreases the lexicographic measure (length of remaining input, size of
remaining pattern) at every step.

Database effects (Supabase reads/writes, collaborator calls) are
embedded by explicit state passing with injected success/failure flags,
and thrown JS exceptions by `Except`.
-/

set_option maxRecDepth 100000

namespace AP

/-! ## Character classes (JS semantics, ASCII as used by the repository) -/

/-- JS `\s` (the whitespace characters that occur in this code base). -/
def isSpaceChar (c : Char) : Bool :=
  c == ' ' || c == '\t' || c == '\n' || c == '\r' || c == '\x0b' || c == '\x0c' ||
    c.val == 0xA0

/-- JS `\w`, i.e. `[A-Za-z0-9_]`. -/
def isWordChar (c : Char) : Bool :=
  c.isAlphanum || c == '_'

/-- JS `String.prototype.toLowerCase` on the ASCII texts in scope. -/
def lowerStr (s : String) : String :=
  String.mk (s.data.map Char.toLower)

/-- JS `String.prototype.trim` (strips `\s` on both ends). -/
def trimStr (s : String) : String :=
  String.mk (((s.data.dropWhile isSpaceChar).reverse.dropWhile isSpaceChar).reverse)

/-- Does the string contain a character satisfying `p`? -/
def containsCh (p : Char → Bool) (s : String) : Bool :=
  s.data.any p

/-! ## Regular expressions as data -/

/-- Abstract syntax of the JavaScript regular expressions used by
`parser.js`.  `lit s ci` is a literal run of characters (`ci` =
case-insensitive, for patterns carrying the `i` flag); `cls` is a
character class; `any` is `.` without the `s` flag (no line
terminators), `anyS` is `.` under the `s` flag; `star r greedy` covers
`*`/`*?`; `look` is a positive lookahead `(?=...)`; `bol`/`eol` are the
multiline `^`/`$`, `bos`/`eos` the non-multiline ones; `wordB` is `\b`;
`group` marks capture group 1. -/
inductive RE where
  | eps
  | any
  | anyS
  | cls (p : Char → Bool)
  | lit (s : List Char) (ci : Bool)
  | seq (a b : RE)
  | alt (a b : RE)
  | star (a : RE) (greedy : Bool)
  | look (a : RE)
  | bol
  | eol
  | bos
  | eos
  | wordB
  | group (a : RE)

namespace RE

def size : RE → Nat
  | eps | any | anyS | cls _ | bol | eol | bos | eos | wordB => 1
  | lit s _ => s.length + 1
  | seq a b => a.size + b.size + 1
  | alt a b => a.size + b.size + 1
  | star a _ => a.size + 1
  | look a => a.size + 1
  | group a => a.size + 1

end RE

/-- Builders mirroring the concrete regex syntax. -/
def rlit (s : String) : RE := .lit s.data true

def rlitC (s : String) : RE := .lit s.data false

def rchar (c : Char) : RE := .lit [c] true

def rcharC (c : Char) : RE := .lit [c] false

def rseq (l : List RE) : RE := l.foldr RE.seq RE.eps

def ralt : List RE → RE
  | [] => RE.eps
  | [r] => r
  | r :: rs => RE.alt r (ralt rs)

def rstar (r : RE) : RE := .star r true

def rstarL (r : RE) : RE := .star r false

def rplus (r : RE) : RE := .seq r (.star r true)

def rplusL (r : RE) : RE := .seq r (.star r false)

def ropt (r : RE) : RE := .alt r .eps

def rrep (r : RE) : Nat → RE
  | 0 => .eps
  | n + 1 => .seq r (rrep r n)

/-- Greedy optional chain for the upper part of `{m,n}`. -/
def roptChain (r : RE) : Nat → RE
  | 0 => .eps
  | n + 1 => ropt (.seq r (roptChain r n))

/-- JS `r{m,n}` (greedy). -/
def rrange (r : RE) (m n : Nat) : RE := .seq (rrep r m) (roptChain r (n - m))

/-- JS `r{m,}` (greedy). -/
def ratLeast (r : RE) (m : Nat) : RE := .seq (rrep r m) (rstar r)

/-- JS `\s`. -/
def wsp : RE := .cls isSpaceChar

/-- JS `\d`. -/
def digitR : RE := .cls Char.isDigit

/-- JS `\w`. -/
def wordR : RE := .cls isWordChar

/-- Case-insensitive alternation of literal words, `(?:w1|w2|...)` under `i`. -/
def raltLits (ws : List String) : RE := ralt (ws.map rlit)

/-- Transcription of `\b(?:w1|...|wn)\b` with the `i` flag, the shape of the vocabulary
alternations in `parser.js`. -/
def wordAltRE (ws : List String) : RE := rseq [.wordB, raltLits ws, .wordB]

/-! ## The engine -/

/-- One point of the backtracking search: the character just before the
remaining input (for `\b`, `^`, `$`), the remaining input, and the
capture of group 1, if taken. -/
structure RunRes where
  prev : Option Char
  rest : List Char
  cap : Option (List Char)

def capMerge (a b : Option (List Char)) : Option (List Char) :=
  match a with
  | some x => some x
  | none => b

def litMatches (l : List Char) (s : List Char) (ci : Bool) : Bool :=
  match l, s with
  | [], _ => true
  | _ :: _, [] => false
  | c :: cs, d :: ds =>
      (if ci then c.toLower == d.toLower else c == d) && litMatches cs ds ci

/-- Is there a word boundary between `prev` and the head of `s`? -/
def atWordBoundary (prev : Option Char) (s : List Char) : Bool :=
  let pw := match prev with | some c => isWordChar c | none => false
  let nw := match s with | c :: _ => isWordChar c | [] => false
  pw != nw

/-- All ways `r` can match a prefix of `s` (given preceding character
`prev`), in JS backtracking priority order; the first element is the
match the JS engine takes.  `fuel` bounds the recursion depth. -/
def reRun : Nat → RE → Option Char → List Char → List RunRes
  | 0, _, _, _ => []
  | _ + 1, .eps, prev, s => [⟨prev, s, none⟩]
  | _ + 1, .any, _prev, s =>
      match s with
      | [] => []
      | c :: cs => if c == '\n' || c == '\r' then [] else [⟨some c, cs, none⟩]
  | _ + 1, .anyS, _prev, s =>
      match s with
      | [] => []
      | c :: cs => [⟨some c, cs, none⟩]
  | _ + 1, .cls p, _, s =>
      match s with
      | [] => []
      | c :: cs => if p c then [⟨some c, cs, none⟩] else []
  | _ + 1, .lit l ci, prev, s =>
      if litMatches l s ci then
        let consumed := s.take l.length
        [⟨(match consumed.getLast? with | some c => some c | none => prev),
          s.drop l.length, none⟩]
      else []
  | fuel + 1, .seq a b, prev, s =>
      (reRun fuel a prev s).flatMap fun ra =>
        (reRun fuel b ra.prev ra.rest).map fun rb =>
          ⟨rb.prev, rb.rest, capMerge ra.cap rb.cap⟩
  | fuel + 1, .alt a b, prev, s => reRun fuel a prev s ++ reRun fuel b prev s
  | fuel + 1, .star a greedy, prev, s =>
      let stepped := (reRun fuel a prev s).filter fun ra => ra.rest.length < s.length
      let more := stepped.flatMap fun ra =>
        (reRun fuel (.star a greedy) ra.prev ra.rest).map fun rb =>
          ⟨rb.prev, rb.rest, capMerge ra.cap rb.cap⟩
      if greedy then more ++ [⟨prev, s, none⟩] else ⟨prev, s, none⟩ :: more
  | fuel + 1, .look a, prev, s =>
      match reRun fuel a prev s with
      | [] => []
      | ra :: _ => [⟨prev, s, ra.cap⟩]
  | _ + 1, .bol, prev, s =>
      if prev == none || prev == some '\n' || prev == some '\r' then [⟨prev, s, none⟩] else []
  | _ + 1, .eol, prev, s =>
      if s.isEmpty || s.head? == some '\n' || s.head? == some '\r' then [⟨prev, s, none⟩]
      else []
  | _ + 1, .bos, prev, s => if prev == none then [⟨prev, s, none⟩] else []
  | _ + 1, .eos, prev, s => if s.isEmpty then [⟨prev, s, none⟩] else []
  | _ + 1, .wordB, prev, s => if atWordBoundary prev s then [⟨prev, s, none⟩] else []
  | fuel + 1, .group a, prev, s =>
      (reRun fuel a prev s).map fun ra =>
        ⟨ra.prev, ra.rest, some (s.take (s.length - ra.rest.length))⟩

/-- A safe recursion-depth bound for `reRun` on input of length `n`:
along any call path the measure (input length, pattern size) decreases
lexicographically. -/
def reFuel (r : RE) (n : Nat) : Nat := (r.size + 1) * (n + 2) + 1

/-- Scan positions left to right; at the first position where the
pattern matches, return (text before the match, the match, group 1,
character preceding the rest, rest). -/
def searchFrom (fuel : Nat) (r : RE) (prev : Option Char) :
    List Char → List Char → Option (List Char × List Char × Option (List Char) × Option Char × List Char)
  | s, pre =>
    match reRun fuel r prev s with
    | res :: _ =>
        some (pre.reverse, s.take (s.length - res.rest.length), res.cap, res.prev, res.rest)
    | [] =>
      match s with
      | [] => none
      | c :: cs => searchFrom fuel r (some c) cs (c :: pre)

/-- JS `s.match(r)` (no `g` flag): `some (match[0], match[1])` on success. -/
def jsMatch (r : RE) (s : String) : Option (String × Option String) :=
  match searchFrom (reFuel r s.length) r none s.data [] with
  | some (_, m, cap, _, _) => some (String.mk m, cap.map String.mk)
  | none => none

/-- JS `r.test(s)`. -/
def reTest (r : RE) (s : String) : Bool :=
  (jsMatch r s).isSome

/-- The `if (match && match[1])` idiom of `parser.js`: the capture of a
successful match, with an empty capture counting as no candidate (JS
truthiness of `match[1]`). -/
def matchCapture1 (r : RE) (s : String) : Option String :=
  match jsMatch r s with
  | some (_, some c) => if c = "" then none else some c
  | _ => none

def replaceAllAux (fuelR : Nat) (r : RE) (repl : List Char) :
    Nat → Option Char → List Char → List Char
  | 0, _, s => s
  | n + 1, prev, s =>
    match searchFrom fuelR r prev s [] with
    | none => s
    | some (pre, matched, _, prevAfter, rest) =>
      if matched.isEmpty then
        match rest with
        | [] => pre ++ repl
        | c :: cs => pre ++ repl ++ [c] ++ replaceAllAux fuelR r repl n (some c) cs
      else pre ++ repl ++ replaceAllAux fuelR r repl n prevAfter rest

/-- JS `s.replace(r, repl)` with the `g` flag (constant replacement). -/
def replaceAllRe (r : RE) (repl : String) (s : String) : String :=
  String.mk (replaceAllAux (reFuel r s.length) r repl.data (s.length + 1) none s.data)

def matchAllAux (fuelR : Nat) (r : RE) : Nat → Option Char → List Char → List (List Char)
  | 0, _, _ => []
  | n + 1, prev, s =>
    match searchFrom fuelR r prev s [] with
    | none => []
    | some (_, matched, _, prevAfter, rest) =>
      if matched.isEmpty then
        match rest with
        | [] => [matched]
        | c :: cs => matched :: matchAllAux fuelR r n (some c) cs
      else matched :: matchAllAux fuelR r n prevAfter rest

/-- JS `s.match(r)` with the `g` flag: the list of full matches. -/
def matchAllFull (r : RE) (s : String) : List String :=
  (matchAllAux (reFuel r s.length) r (s.length + 1) none s.data).map String.mk

/-- First-some iteration: the JS `for`-loop with early `return`. -/
def firstSome (l : List α) (f : α → Option β) : Option β :=
  match l with
  | [] => none
  | a :: rest =>
    match f a with
    | some b => some b
    | none => firstSome rest f


/-! ## Vocabulary lists from parser.js -/

/-- Vocabulary alternation transcribed from `parser.js` (52 entries). -/
def p3CountriesList : List String :=
  ["India", "Indonesia", "Singapore", "Malaysia", "Thailand", "Philippines", "Vietnam", "Australia",
   "Japan", "South Korea", "China", "Hong Kong", "Taiwan", "United States", "USA", "Canada", "United Kingdom",
   "UK", "Germany", "France", "Italy", "Spain", "Netherlands", "Belgium", "Sweden", "Norway", "Denmark",
   "Finland", "Switzerland", "Austria", "Poland", "Czech Republic", "Hungary", "Romania", "Bulgaria",
   "Greece", "Turkey", "Russia", "Ukraine", "Brazil", "Argentina", "Chile", "Colombia", "Peru", "Mexico",
   "South Africa", "Egypt", "Nigeria", "Kenya", "Morocco", "Algeria", "Tunisia"]

/-- Vocabulary alternation transcribed from `parser.js` (92 entries). -/
def p4CountriesList : List String :=
  ["Afghanistan", "Albania", "Algeria", "Argentina", "Armenia", "Australia", "Austria", "Azerbaijan",
   "Bahrain", "Bangladesh", "Belarus", "Belgium", "Bolivia", "Bosnia", "Brazil", "Bulgaria", "Cambodia",
   "Canada", "Chile", "China", "Colombia", "Croatia", "Cuba", "Cyprus", "Czech Republic", "Denmark",
   "Ecuador", "Egypt", "Estonia", "Ethiopia", "Finland", "France", "Georgia", "Germany", "Ghana", "Greece",
   "Hungary", "Iceland", "India", "Indonesia", "Iran", "Iraq", "Ireland", "Israel", "Italy", "Japan",
   "Jordan", "Kazakhstan", "Kenya", "Kuwait", "Latvia", "Lebanon", "Lithuania", "Luxembourg", "Malaysia",
   "Mexico", "Morocco", "Netherlands", "New Zealand", "Nigeria", "Norway", "Pakistan", "Peru", "Philippines",
   "Poland", "Portugal", "Qatar", "Romania", "Russia", "Saudi Arabia", "Singapore", "Slovakia", "Slovenia",
   "South Africa", "South Korea", "Spain", "Sri Lanka", "Sweden", "Switzerland", "Syria", "Taiwan",
   "Thailand", "Turkey", "Ukraine", "United Arab Emirates", "United Kingdom", "United States", "Uruguay",
   "Venezuela", "Vietnam", "Yemen", "Zimbabwe"]

/-- Vocabulary alternation transcribed from `parser.js` (61 entries). -/
def p5CitiesList : List String :=
  ["Mumbai", "Delhi", "Bangalore", "Bengaluru", "Hyderabad", "Chennai", "Kolkata", "Pune", "Ahmedabad",
   "Jaipur", "Surat", "Kanpur", "Lucknow", "Nagpur", "Patna", "Indore", "Thane", "Bhopal", "Visakhapatnam",
   "Vadodara", "Ghaziabad", "Ludhiana", "Agra", "Nashik", "Faridabad", "Meerut", "Rajkot", "Kalyan",
   "Dombivli", "Vasai", "Virar", "Varanasi", "Srinagar", "Aurangabad", "Dhanbad", "Amritsar", "Navi Mumbai",
   "Allahabad", "Ranchi", "Howrah", "Coimbatore", "Jabalpur", "Gwalior", "Vijayawada", "Jodhpur", "Madurai",
   "Raipur", "Kota", "Guwahati", "Chandigarh", "Solapur", "Hubballi", "Dharwad", "Tiruchirappalli",
   "Bareilly", "Mysore", "Tiruppur", "Gurgaon", "Gurugram", "Noida", "Greater Noida"]

/-- Vocabulary alternation transcribed from `parser.js` (31 entries). -/
def p5StatesList : List String :=
  ["Maharashtra", "Delhi", "Karnataka", "Telangana", "Tamil Nadu", "West Bengal", "Gujarat", "Rajasthan",
   "Uttar Pradesh", "Madhya Pradesh", "Bihar", "Andhra Pradesh", "Haryana", "Punjab", "Assam", "Odisha",
   "Kerala", "Jharkhand", "Uttarakhand", "Himachal Pradesh", "Tripura", "Meghalaya", "Manipur", "Nagaland",
   "Goa", "Arunachal Pradesh", "Mizoram", "Sikkim", "Jammu and Kashmir", "Ladakh", "Chandigarh"]

/-- Vocabulary alternation transcribed from `parser.js` (21 entries). -/
def titleNoiseList : List String :=
  ["currently", "presently", "working", "position", "role", "job", "title", "at", "with", "for", "in",
   "company", "organization", "firm", "corp", "inc", "ltd", "llc", "pvt", "private", "limited"]

/-- Vocabulary alternation transcribed from `parser.js` (430 entries). -/
def stripJobTermsList : List String :=
  ["strategic", "marketing", "transformation", "product", "excellence", "go-to-market", "development",
   "engineering", "programming", "software", "technical", "business", "management", "analysis", "design",
   "consulting", "sales", "operations", "finance", "hr", "human resources", "legal", "content", "digital",
   "social media", "advertising", "branding", "communications", "public relations", "customer success",
   "account management", "project management", "program management", "quality assurance", "data science",
   "machine learning", "artificial intelligence", "cloud computing", "cybersecurity", "information technology",
   "network administration", "database administration", "web development", "mobile development", "full stack",
   "backend", "frontend", "devops", "ui ux", "user experience", "user interface", "graphic design",
   "interior design", "fashion design", "industrial design", "architecture", "construction", "real estate",
   "logistics", "supply chain", "procurement", "vendor management", "contract negotiation", "business development",
   "partnership", "alliance", "corporate strategy", "mergers acquisitions", "investment banking", "private equity",
   "venture capital", "asset management", "portfolio management", "risk management", "compliance",
   "audit", "taxation", "accounting", "bookkeeping", "payroll", "benefits administration", "recruitment",
   "talent acquisition", "learning development", "organizational development", "change management",
   "leadership", "executive", "director", "manager", "supervisor", "coordinator", "specialist", "analyst",
   "associate", "assistant", "intern", "trainee", "consultant", "freelancer", "contractor", "vendor",
   "supplier", "client", "customer", "partner", "stakeholder", "shareholder", "investor", "founder",
   "entrepreneur", "startup", "enterprise", "corporation", "company", "organization", "institution",
   "agency", "government", "nonprofit", "ngo", "foundation", "university", "college", "school", "hospital",
   "clinic", "pharmacy", "laboratory", "research", "development", "innovation", "technology", "science",
   "mathematics", "statistics", "economics", "finance", "accounting", "marketing", "sales", "operations",
   "human resources", "information technology", "engineering", "design", "architecture", "construction",
   "manufacturing", "production", "quality", "safety", "environment", "sustainability", "energy", "utilities",
   "transportation", "logistics", "telecommunications", "media", "entertainment", "gaming", "sports",
   "fitness", "health", "wellness", "beauty", "fashion", "food", "beverage", "hospitality", "tourism",
   "travel", "retail", "wholesale", "distribution", "import", "export", "trade", "commerce", "banking",
   "insurance", "real estate", "legal", "law", "justice", "security", "defense", "military", "police",
   "fire", "emergency", "medical", "healthcare", "pharmaceutical", "biotechnology", "chemicals", "materials",
   "textiles", "automotive", "aerospace", "marine", "agriculture", "forestry", "mining", "oil", "gas",
   "renewable", "solar", "wind", "nuclear", "water", "waste", "recycling", "construction", "infrastructure",
   "urban planning", "architecture", "interior design", "landscape", "graphic design", "web design",
   "app development", "game development", "animation", "video production", "photography", "journalism",
   "writing", "editing", "translation", "interpretation", "education", "training", "coaching", "mentoring",
   "counseling", "therapy", "psychology", "social work", "community service", "volunteering", "charity",
   "fundraising", "event planning", "project coordination", "administration", "secretarial", "clerical",
   "data entry", "customer service", "call center", "help desk", "technical support", "maintenance",
   "repair", "installation", "delivery", "shipping", "warehouse", "inventory", "procurement", "purchasing",
   "sourcing", "negotiation", "contract", "legal", "compliance", "audit", "risk", "security", "safety",
   "quality", "testing", "inspection", "certification", "standards", "regulations", "policies", "procedures",
   "documentation", "reporting", "analysis", "research", "investigation", "surveillance", "monitoring",
   "evaluation", "assessment", "measurement", "metrics", "kpi", "roi", "budget", "forecast", "planning",
   "strategy", "vision", "mission", "values", "culture", "ethics", "governance", "leadership", "management",
   "supervision", "coordination", "collaboration", "teamwork", "communication", "presentation", "negotiation",
   "persuasion", "influence", "relationship", "networking", "partnership", "alliance", "merger", "acquisition",
   "divestiture", "restructuring", "transformation", "change", "innovation", "creativity", "problem solving",
   "decision making", "critical thinking", "analytical", "logical", "mathematical", "statistical",
   "technical", "scientific", "research", "development", "design", "engineering", "architecture", "construction",
   "manufacturing", "production", "assembly", "testing", "quality", "maintenance", "repair", "troubleshooting",
   "debugging", "optimization", "improvement", "enhancement", "upgrade", "migration", "implementation",
   "deployment", "rollout", "launch", "release", "delivery", "support", "service", "customer", "client",
   "user", "end user", "stakeholder", "vendor", "supplier", "partner", "contractor", "consultant",
   "freelancer", "temporary", "permanent", "full time", "part time", "contract", "remote", "hybrid",
   "onsite", "office", "home", "travel", "international", "domestic", "local", "regional", "national",
   "global", "worldwide", "enterprise", "corporate", "startup", "small business", "medium business",
   "large business", "public", "private", "government", "nonprofit", "education", "healthcare", "technology",
   "finance", "retail", "manufacturing", "service", "consulting", "agency", "firm", "company", "organization",
   "institution", "association", "foundation", "trust", "cooperative", "partnership", "sole proprietorship",
   "llc", "corporation", "inc", "ltd", "co", "llp", "pllc", "pa", "pc"]

/-- Vocabulary alternation transcribed from `parser.js` (75 entries). -/
def stripTechTermsList : List String :=
  ["Python", "Java", "JavaScript", "React", "Angular", "Node", "PHP", "Ruby", "C++", "C#", "Go", "Kotlin",
   "Swift", "HTML", "CSS", "SQL", "MongoDB", "MySQL", "PostgreSQL", "Redis", "Docker", "Kubernetes",
   "AWS", "Azure", "GCP", "Git", "Jenkins", "Linux", "Windows", "MacOS", "Android", "iOS", "Django",
   "Flask", "Spring", "Laravel", "Express", "Vue", "Bootstrap", "jQuery", "TypeScript", "Scala", "Rust",
   "Perl", "R", "MATLAB", "Tableau", "PowerBI", "Salesforce", "SAP", "Oracle", "Microsoft", "Google",
   "Apple", "Meta", "Facebook", "Amazon", "Netflix", "Uber", "Airbnb", "Spotify", "Tesla", "Twitter",
   "LinkedIn", "Instagram", "WhatsApp", "TikTok", "Snapchat", "Pinterest", "Reddit", "YouTube", "GitHub",
   "Stack Overflow", "Medium", "Dev.to"]

/-- Vocabulary alternation transcribed from `parser.js` (105 entries). -/
def jobTermPatternList : List String :=
  ["strategic", "marketing", "transformation", "product", "excellence", "go-to-market", "development",
   "engineering", "management", "analysis", "design", "consulting", "sales", "operations", "finance",
   "hr", "legal", "content", "technical", "business", "software", "programming", "coding", "developer",
   "engineer", "manager", "analyst", "consultant", "designer", "specialist", "coordinator", "executive",
   "director", "lead", "senior", "junior", "associate", "intern", "trainee", "python", "java", "javascript",
   "react", "angular", "node", "php", "ruby", "html", "css", "sql", "mongodb", "mysql", "postgresql",
   "redis", "docker", "kubernetes", "aws", "azure", "gcp", "git", "jenkins", "linux", "windows", "macos",
   "android", "ios", "django", "flask", "spring", "laravel", "express", "vue", "bootstrap", "jquery",
   "typescript", "scala", "rust", "perl", "matlab", "tableau", "powerbi", "salesforce", "sap", "oracle",
   "microsoft", "google", "apple", "meta", "facebook", "amazon", "netflix", "uber", "airbnb", "spotify",
   "tesla", "twitter", "linkedin", "instagram", "whatsapp", "tiktok", "snapchat", "pinterest", "reddit",
   "youtube", "github"]

/-- Vocabulary alternation transcribed from `parser.js` (124 entries). -/
def invalidLocList1 : List String :=
  ["strategic", "marketing", "transformation", "product", "excellence", "go-to-market", "development",
   "engineering", "management", "analysis", "design", "consulting", "sales", "operations", "finance",
   "hr", "human", "resources", "legal", "content", "technical", "business", "software", "programming",
   "coding", "developer", "engineer", "manager", "analyst", "consultant", "designer", "specialist",
   "coordinator", "executive", "director", "lead", "senior", "junior", "associate", "intern", "trainee",
   "experience", "current", "past", "skills", "qualifications", "screening", "questions", "answers",
   "yes", "no", "true", "false", "python", "java", "javascript", "react", "angular", "node", "php",
   "ruby", "html", "css", "sql", "mongodb", "mysql", "postgresql", "redis", "docker", "kubernetes",
   "aws", "azure", "gcp", "git", "jenkins", "linux", "windows", "macos", "android", "ios", "django",
   "flask", "spring", "laravel", "express", "vue", "bootstrap", "jquery", "typescript", "scala", "rust",
   "perl", "matlab", "tableau", "powerbi", "salesforce", "sap", "oracle", "microsoft", "google", "apple",
   "meta", "facebook", "amazon", "netflix", "uber", "airbnb", "spotify", "tesla", "twitter", "linkedin",
   "instagram", "whatsapp", "tiktok", "snapchat", "pinterest", "reddit", "youtube", "github", "stack",
   "overflow", "medium", "dev", "to"]

/-- Vocabulary alternation transcribed from `parser.js` (40 entries). -/
def invalidLocList2 : List String :=
  ["new", "application", "from", "job", "at", "with", "for", "in", "the", "and", "or", "but", "your",
   "has", "this", "that", "these", "those", "view", "all", "click", "here", "link", "email", "message",
   "html", "body", "subject", "candidate", "applicant", "resume", "cv", "portfolio", "profile", "about",
   "contact", "phone", "mobile", "telephone", "website"]

/-- Vocabulary alternation transcribed from `parser.js` (24 entries;
entries of the form `words?` carry an optional final character). -/
def invalidLocList3 : List RE :=
  [rlit "work", rlit "working", rlit "worked", rlit "experience", rlit "experienced",
   rseq [rlit "year", ropt (rchar 's')], rseq [rlit "month", ropt (rchar 's')], rseq [rlit "day", ropt (rchar 's')],
   rlit "time", rlit "period", rlit "duration", rseq [rlit "technologie", ropt (rchar 's')],
   rseq [rlit "tool", ropt (rchar 's')], rseq [rlit "framework", ropt (rchar 's')],
   rseq [rlit "librarie", ropt (rchar 's')], rseq [rlit "language", ropt (rchar 's')],
   rlit "problem", rlit "solving", rlit "critical", rlit "thinking", rlit "leadership",
   rlit "team", rlit "collaboration", rlit "communication"]

/-- Vocabulary alternation transcribed from `parser.js` (92 entries). -/
def kwCountriesList : List String :=
  ["afghanistan", "albania", "algeria", "argentina", "armenia", "australia", "austria", "azerbaijan",
   "bahrain", "bangladesh", "belarus", "belgium", "bolivia", "bosnia", "brazil", "bulgaria", "cambodia",
   "canada", "chile", "china", "colombia", "croatia", "cuba", "cyprus", "czech", "denmark", "ecuador",
   "egypt", "estonia", "ethiopia", "finland", "france", "georgia", "germany", "ghana", "greece", "hungary",
   "iceland", "india", "indonesia", "iran", "iraq", "ireland", "israel", "italy", "japan", "jordan",
   "kazakhstan", "kenya", "kuwait", "latvia", "lebanon", "lithuania", "luxembourg", "malaysia", "mexico",
   "morocco", "netherlands", "new zealand", "nigeria", "norway", "pakistan", "peru", "philippines",
   "poland", "portugal", "qatar", "romania", "russia", "saudi arabia", "singapore", "slovakia", "slovenia",
   "south africa", "south korea", "spain", "sri lanka", "sweden", "switzerland", "syria", "taiwan",
   "thailand", "turkey", "ukraine", "united arab emirates", "united kingdom", "united states", "uruguay",
   "venezuela", "vietnam", "yemen", "zimbabwe"]

/-- Vocabulary alternation transcribed from `parser.js` (50 entries). -/
def kwUsStatesList : List String :=
  ["alabama", "alaska", "arizona", "arkansas", "california", "colorado", "connecticut", "delaware",
   "florida", "georgia", "hawaii", "idaho", "illinois", "indiana", "iowa", "kansas", "kentucky", "louisiana",
   "maine", "maryland", "massachusetts", "michigan", "minnesota", "mississippi", "missouri", "montana",
   "nebraska", "nevada", "new hampshire", "new jersey", "new mexico", "new york", "north carolina",
   "north dakota", "ohio", "oklahoma", "oregon", "pennsylvania", "rhode island", "south carolina",
   "south dakota", "tennessee", "texas", "utah", "vermont", "virginia", "washington", "west virginia",
   "wisconsin", "wyoming"]

/-- Vocabulary alternation transcribed from `parser.js` (37 entries). -/
def kwIndianStatesList : List String :=
  ["andhra pradesh", "arunachal pradesh", "assam", "bihar", "chhattisgarh", "goa", "gujarat", "haryana",
   "himachal pradesh", "jharkhand", "karnataka", "kerala", "madhya pradesh", "maharashtra", "manipur",
   "meghalaya", "mizoram", "nagaland", "odisha", "punjab", "rajasthan", "sikkim", "tamil nadu", "telangana",
   "tripura", "uttar pradesh", "uttarakhand", "west bengal", "delhi", "chandigarh", "dadra", "daman",
   "lakshadweep", "puducherry", "jammu", "kashmir", "ladakh"]

/-- Vocabulary alternation transcribed from `parser.js` (708 entries). -/
def kwCitiesList : List String :=
  ["mumbai", "delhi", "bangalore", "bengaluru", "hyderabad", "chennai", "kolkata", "pune", "ahmedabad",
   "jaipur", "surat", "kanpur", "lucknow", "nagpur", "patna", "indore", "thane", "bhopal", "visakhapatnam",
   "vadodara", "ghaziabad", "ludhiana", "agra", "nashik", "faridabad", "meerut", "rajkot", "gurgaon",
   "gurugram", "noida", "greater noida", "new york", "los angeles", "chicago", "houston", "phoenix",
   "philadelphia", "san antonio", "san diego", "dallas", "san jose", "austin", "jacksonville", "fort worth",
   "columbus", "charlotte", "san francisco", "indianapolis", "seattle", "denver", "washington", "boston",
   "el paso", "nashville", "detroit", "oklahoma city", "portland", "las vegas", "memphis", "louisville",
   "baltimore", "milwaukee", "albuquerque", "tucson", "fresno", "mesa", "sacramento", "atlanta", "kansas city",
   "colorado springs", "miami", "raleigh", "omaha", "long beach", "virginia beach", "oakland", "minneapolis",
   "tulsa", "arlington", "tampa", "new orleans", "wichita", "cleveland", "bakersfield", "aurora", "anaheim",
   "honolulu", "santa ana", "riverside", "corpus christi", "lexington", "stockton", "henderson", "saint paul",
   "st louis", "cincinnati", "pittsburgh", "greensboro", "anchorage", "plano", "lincoln", "orlando",
   "irvine", "newark", "durham", "chula vista", "toledo", "fort wayne", "st petersburg", "laredo",
   "jersey city", "chandler", "madison", "lubbock", "scottsdale", "reno", "buffalo", "gilbert", "glendale",
   "north las vegas", "winston salem", "chesapeake", "norfolk", "fremont", "garland", "irving", "hialeah",
   "richmond", "boise", "spokane", "baton rouge", "toronto", "vancouver", "montreal", "calgary", "edmonton",
   "ottawa", "winnipeg", "quebec city", "hamilton", "kitchener", "london", "halifax", "st catharines",
   "windsor", "oshawa", "victoria", "saskatoon", "regina", "sherbrooke", "kelowna", "barrie", "guelph",
   "kanata", "abbotsford", "trois rivieres", "kingston", "milton", "moncton", "white rock", "nanaimo",
   "brantford", "chicoutimi", "saint jean sur richelieu", "thunder bay", "chatham", "sydney", "berlin",
   "munich", "frankfurt", "hamburg", "cologne", "stuttgart", "dusseldorf", "dortmund", "essen", "leipzig",
   "bremen", "dresden", "hanover", "nuremberg", "duisburg", "bochum", "wuppertal", "bielefeld", "bonn",
   "munster", "mannheim", "augsburg", "wiesbaden", "gelsenkirchen", "aachen", "monchengladbach", "braunschweig",
   "chemnitz", "kiel", "halle", "magdeburg", "freiburg", "krefeld", "lubeck", "oberhausen", "erfurt",
   "mainz", "rostock", "kassel", "hagen", "paris", "marseille", "lyon", "toulouse", "nice", "nantes",
   "strasbourg", "montpellier", "bordeaux", "lille", "rennes", "reims", "le havre", "saint etienne",
   "toulon", "angers", "grenoble", "dijon", "nimes", "aix en provence", "brest", "le mans", "amiens",
   "tours", "limoges", "clermont ferrand", "villeurbanne", "besancon", "orleans", "metz", "rouen",
   "mulhouse", "perpignan", "caen", "boulogne billancourt", "nancy", "argenteuil", "roubaix", "tourcoing",
   "nanterre", "avignon", "vitry sur seine", "creteil", "dunkerque", "poitiers", "asnieres sur seine",
   "courbevoie", "versailles", "colombes", "fort de france", "aulnay sous bois", "saint pierre", "rueil malmaison",
   "pau", "aubervilliers", "champigny sur marne", "antibes", "la rochelle", "cannes", "calais", "beziers",
   "colmar", "bourges", "drancy", "merignac", "saint nazaire", "issy les moulineaux", "noisy le grand",
   "levallois perret", "quimper", "valence", "antony", "troyes", "montrouge", "pessac", "ivry sur seine",
   "cergy", "clichy", "lorient", "niort", "sarcelles", "chambery", "le cannet", "evry", "hyeres", "neuilly sur seine",
   "villejuif", "epinay sur seine", "meaux", "frejus", "bobigny", "palaiseau", "cholet", "saint ouen",
   "istres", "creil", "sartrouville", "grasse", "pontault combault", "chatillon", "clamart", "draguignan",
   "rosny sous bois", "maisons alfort", "gonesse", "cagnes sur mer", "franconville", "savigny sur orge",
   "bagneux", "chatou", "arras", "tokyo", "yokohama", "osaka", "nagoya", "sapporo", "fukuoka", "kobe",
   "kawasaki", "kyoto", "saitama", "hiroshima", "sendai", "kitakyushu", "chiba", "sakai", "niigata",
   "hamamatsu", "kumamoto", "sagamihara", "shizuoka", "okayama", "kanazawa", "utsunomiya", "matsuyama",
   "kurashiki", "yokosuka", "toyohashi", "toyonaka", "machida", "gifu", "fujisawa", "fukuyama", "toyama",
   "hirakata", "kashiwa", "nara", "kawagoe", "ichikawa", "iwaki", "naha", "kagoshima", "hachioji",
   "amagasaki", "akita", "koriyama", "takatsuki", "kawaguchi", "kochi", "maebashi", "tokorozawa", "asahikawa",
   "suita", "matsudo", "urawa", "takasaki", "kurume", "ichihara", "mito", "anjo", "atsugi", "yamato",
   "ageo", "takamatsu", "chofu", "ota", "kasugai", "akashi", "tsu", "nobeoka", "suzuka", "isesaki",
   "kumagaya", "nagano", "nagaoka", "kasukabe", "ube", "yamagata", "shimonoseki", "takarazuka", "otsu",
   "hitachi", "numazu", "beijing", "shanghai", "guangzhou", "shenzhen", "chongqing", "tianjin", "chengdu",
   "dongguan", "nanjing", "wuhan", "xian", "hangzhou", "foshan", "shenyang", "qingdao", "jinan", "harbin",
   "zhengzhou", "kunming", "dalian", "taiyuan", "hefei", "urumqi", "fuzhou", "shijiazhuang", "zhongshan",
   "wenzhou", "nanning", "changchun", "lanzhou", "changsha", "zibo", "xuzhou", "wuxi", "suzhou", "yantai",
   "changzhou", "shaoxing", "ningbo", "huaian", "handan", "zhenjiang", "yangzhou", "taizhou", "luoyang",
   "weifang", "weihai", "anshan", "liuzhou", "baotou", "datong", "jining", "linyi", "tangshan", "yancheng",
   "huzhou", "xinxiang", "jingzhou", "zhaoqing", "putian", "jinhua", "nantong", "changshu", "zhuhai",
   "jiaxing", "quanzhou", "taian", "dezhou", "binzhou", "cangzhou", "dongying", "rizhao", "liaocheng",
   "laiwu", "lishui", "huangshan", "anqing", "bengbu", "bozhou", "chizhou", "chuzhou", "fuyang", "huaibei",
   "huainan", "luan", "maanshan", "tongling", "wuhu", "xuancheng", "sydney", "melbourne", "brisbane",
   "perth", "adelaide", "gold coast", "canberra", "newcastle", "central coast", "wollongong", "logan city",
   "geelong", "hobart", "townsville", "cairns", "darwin", "launceston", "bendigo", "ballarat", "mandurah",
   "mackay", "rockhampton", "bunbury", "bundaberg", "coffs harbour", "wagga wagga", "hervey bay", "mildura",
   "shepparton", "gladstone", "tamworth", "traralgon", "orange", "dubbo", "geraldton", "bathurst",
   "kalgoorlie", "warrnambool", "albany", "kempsey", "devonport", "mount gambier", "lismore", "nelson bay",
   "warwick", "kingaroy", "whyalla", "murray bridge", "broken hill", "port augusta", "ceduna", "coober pedy",
   "seoul", "busan", "incheon", "daegu", "daejeon", "gwangju", "suwon", "ulsan", "changwon", "goyang",
   "yongin", "bucheon", "ansan", "cheongju", "jeonju", "anyang", "cheonan", "pohang", "uijeongbu",
   "siheung", "paju", "gimhae", "jeju", "yangsan", "gumi", "asan", "pyeongtaek", "gunsan", "gwangyang",
   "mokpo", "wonju", "gangneung", "chuncheon", "sokcho", "samcheok", "donghae", "taebaek", "jeongeup",
   "namwon", "gimje", "boryeong", "seosan", "nonsan", "gongju", "buyeo", "geumsan", "yeongi", "hongseong",
   "yesan", "dangjin", "taean", "cheorwon", "hwacheon", "yanggu", "inje", "goseong", "yeongwol", "pyeongchang",
   "jeongseon", "uljin", "yeongdeok", "cheongsong", "yeongyang", "bonghwa", "uiseong", "gunwi", "chilgok",
   "seongju", "gimcheon", "goryeong", "hapcheon", "changnyeong", "miryang", "haman", "changwon", "gimhae",
   "yangsan", "ulsan", "pohang", "gyeongju", "yeongcheon", "andong", "sangju", "mungyeong", "yecheon",
   "cheongsong", "yeongyang", "bonghwa", "ulleung", "bangkok", "chiang mai", "phuket", "pattaya", "krabi",
   "hua hin", "koh samui", "ayutthaya", "sukhothai", "chiang rai", "udon thani", "nakhon ratchasima",
   "khon kaen", "manila", "cebu", "davao", "baguio", "boracay", "palawan", "bohol", "iloilo", "cagayan de oro",
   "zamboanga", "kuala lumpur", "george town", "johor bahru", "ipoh", "shah alam", "petaling jaya",
   "klang", "subang jaya", "kota kinabalu", "kuching", "malacca", "alor setar", "seremban", "kajang",
   "ampang", "putrajaya", "cyberjaya", "ho chi minh city", "hanoi", "da nang", "hoi an", "hue", "nha trang",
   "can tho", "dalat", "vung tau", "halong", "sapa", "phnom penh", "siem reap", "battambang", "sihanoukville",
   "kampot", "kep", "yangon", "mandalay", "bagan", "inle lake", "naypyidaw", "mawlamyine", "taunggyi",
   "pathein", "monywa", "meiktila", "vientiane", "luang prabang", "pakse", "savannakhet", "thakhek",
   "phonsavan", "muang sing", "bandar seri begawan", "kuala belait", "seria", "tutong"]

/-- Vocabulary alternation transcribed from `parser.js` (48 entries). -/
def nameInvalidList1 : List String :=
  ["new", "application", "from", "job", "candidate", "applicant", "developer", "engineer", "manager",
   "senior", "junior", "lead", "position", "role", "title", "at", "with", "for", "in", "strategic",
   "marketing", "transformation", "product", "excellence", "go-to-market", "development", "engineering",
   "management", "analysis", "design", "consulting", "sales", "operations", "finance", "hr", "legal",
   "content", "technical", "business", "software", "programming", "coding", "wrong", "world", "south",
   "north", "east", "west"]

/-- Vocabulary alternation transcribed from `parser.js` (16 entries). -/
def nameInvalidList2 : List String :=
  ["your", "has", "the", "and", "or", "but", "if", "when", "where", "what", "how", "why", "this", "that",
   "these", "those"]

/-- Vocabulary alternation transcribed from `parser.js` (18 entries). -/
def nameInvalidList3 : List String :=
  ["delhi", "mumbai", "bangalore", "chennai", "kolkata", "hyderabad", "pune", "south", "north", "east",
   "west", "india", "karnataka", "maharashtra", "tamil nadu", "west bengal", "gujarat", "rajasthan"]

/-- Vocabulary alternation transcribed from `parser.js` (209 entries). -/
def titleValidList1 : List String :=
  ["head", "director", "chief", "vice president", "vp", "president", "ceo", "coo", "cfo", "cto", "cmo",
   "cpo", "manager", "senior", "junior", "lead", "principal", "staff", "associate", "specialist", "coordinator",
   "executive", "analyst", "consultant", "designer", "architect", "programmer", "developer", "engineer",
   "scientist", "researcher", "advisor", "strategist", "planner", "supervisor", "administrator", "officer",
   "representative", "agent", "sales", "marketing", "operations", "finance", "accounting", "human resources",
   "hr", "legal", "compliance", "audit", "risk", "security", "safety", "quality", "testing", "support",
   "service", "customer", "client", "product", "project", "program", "technical", "business", "data",
   "software", "web", "mobile", "application", "system", "network", "database", "cloud", "devops",
   "qa", "content", "digital", "social", "media", "communications", "public", "relations", "brand",
   "creative", "design", "user", "experience", "interface", "frontend", "backend", "fullstack", "machine",
   "learning", "artificial", "intelligence", "cybersecurity", "information", "technology", "infrastructure",
   "architecture", "construction", "manufacturing", "production", "logistics", "supply", "chain", "procurement",
   "vendor", "contract", "partnership", "alliance", "transformation", "innovation", "strategy", "planning",
   "research", "development", "growth", "revenue", "profit", "performance", "optimization", "improvement",
   "enhancement", "leadership", "team", "collaboration", "communication", "presentation", "negotiation",
   "training", "education", "learning", "coaching", "mentoring", "counseling", "therapy", "healthcare",
   "medical", "pharmaceutical", "biotechnology", "chemistry", "biology", "physics", "mathematics",
   "statistics", "economics", "psychology", "sociology", "anthropology", "history", "geography", "literature",
   "journalism", "writing", "editing", "translation", "interpretation", "publishing", "media", "entertainment",
   "gaming", "sports", "fitness", "wellness", "beauty", "fashion", "food", "beverage", "hospitality",
   "tourism", "travel", "transportation", "automotive", "aerospace", "marine", "agriculture", "forestry",
   "mining", "oil", "gas", "energy", "utilities", "telecommunications", "broadcasting", "film", "television",
   "music", "art", "photography", "graphic", "interior", "landscape", "industrial", "fashion", "jewelry",
   "textile", "furniture", "architecture", "urban", "planning", "environmental", "sustainability",
   "renewable", "solar", "wind", "nuclear", "water", "waste", "recycling"]

/-- Vocabulary alternation transcribed from `parser.js` (39 entries). -/
def titleValidList2 : List String :=
  ["head", "director", "chief", "vice president", "vp", "president", "ceo", "coo", "cfo", "cto", "cmo",
   "cpo", "manager", "senior", "junior", "lead", "principal", "staff", "associate", "specialist", "coordinator",
   "executive", "analyst", "consultant", "designer", "architect", "programmer", "developer", "engineer",
   "scientist", "researcher", "advisor", "strategist", "planner", "supervisor", "administrator", "officer",
   "representative", "agent"]

/-- Vocabulary alternation transcribed from `parser.js` (52 entries). -/
def titleInvalidList : List String :=
  ["new", "application", "from", "job", "at", "with", "for", "in", "the", "and", "or", "but", "your",
   "has", "this", "that", "candidate", "applicant", "resume", "cv", "portfolio", "profile", "about",
   "contact", "skills", "experience", "education", "qualifications", "screening", "questions", "answers",
   "currently", "presently", "working", "position", "role", "title", "company", "organization", "firm",
   "corp", "inc", "ltd", "llc", "pvt", "private", "limited", "strategic", "marketing", "transformation",
   "excellence", "go-to-market"]



/-! ## parser.js : helpers -/

/-- Transcription of `EmailParser.cleanTextForParsing`: entity decoding, tag stripping,
whitespace normalization. -/
def cleanTextForParsing (text : String) : String :=
  if text = "" then ""
  else
    trimStr <|
      replaceAllRe (rlitC "\r\n") "\n" <|
      replaceAllRe (rplus wsp) " " <|
      replaceAllRe (rseq [rcharC '<', rstar (.cls fun c => c != '>'), rcharC '>']) " " <|
      replaceAllRe (rlitC "&quot;") "\x22" <|
      replaceAllRe (rlitC "&gt;") ">" <|
      replaceAllRe (rlitC "&lt;") "<" <|
      replaceAllRe (rlitC "&amp;") "&" <|
      replaceAllRe (rlitC "&nbsp;") " " text

/-- The normalized message record consumed by the parser.  `fromAddr`
models `message.from` (`from` is a reserved word in Lean); an absent
`htmlBody` (`undefined` in JS) is `none`; an absent attachment list is
the empty list. -/
structure EmailMessage where
  id : String
  subject : String
  fromAddr : String
  body : String
  htmlBody : Option String
  attachments : List String

/-! ## parser.js : the classifier `isLinkedInApplication` -/

/-- Transcription of `/jobs-listings@linkedin\.com|jobs-noreply@linkedin\.com|noreply@linkedin\.com/i` -/
def fromLinkedInJobsRE : RE :=
  raltLits ["jobs-listings@linkedin.com", "jobs-noreply@linkedin.com", "noreply@linkedin.com"]

/-- The strong application-intent subject pattern of `isLinkedInApplication`. -/
def applicationSubjectRE : RE :=
  ralt [rlit "new application", rlit "job application",
        rlit "your job has a new applicant",
        rseq [rlit "application", rstar .any, rlit "from"],
        rlit "applicant",
        rseq [rlit "candidate", rstar .any, rlit "applied"]]

/-- Transcription of `this.excludePatterns` (10 promotional/billing exclusion patterns). -/
def excludePatterns : List RE :=
  [rseq [rlit "linkedin", rstar .any, rlit "premium", rstar .any, rlit "upgrade"],
   rseq [rlit "linkedin", rstar .any, rlit "subscription"],
   rseq [rlit "linkedin", rstar .any, rlit "billing"],
   rseq [rlit "linkedin", rstar .any, rlit "payment"],
   rseq [rlit "unsubscribe", rstar .any, rlit "marketing"],
   rseq [rlit "promotional", rstar .any, rlit "offer"],
   rseq [rlit "advertisement", rstar .any, rlit "sponsored"],
   rseq [rlit "newsletter", rstar .any, rlit "weekly"],
   rseq [raltLits ["upgrade", "subscribe", "premium"], rstar .any,
         raltLits ["now", "today", "offer"]],
   rseq [raltLits ["billing", "payment"], rstar .any,
         raltLits ["failed", "due", "overdue"]]]

/-- Transcription of `this.linkedInPatterns` (28 patterns). -/
def linkedInPatterns : List RE :=
  [rlit "jobs-listings@linkedin.com",
   rlit "jobs-noreply@linkedin.com",
   rlit "noreply@linkedin.com",
   rlit "linkedin.com",
   rlit "new application",
   rlit "job application",
   rlit "your job has a new applicant",
   rlit "application received",
   rlit "application submitted",
   rlit "thank you for applying",
   rlit "your application",
   rlit "we received your application",
   rlit "application status",
   rseq [rlit "applicant", rstar .any, rlit "submitted"],
   rlit "candidate applied",
   rlit "resume received",
   rlit "cv received",
   rseq [rlit "applied", rstar .any, rlit "position"],
   rseq [rlit "applied", rstar .any, rlit "role"],
   rseq [rlit "applied", rstar .any, rlit "job"],
   rseq [rlit "linkedin", rstar .any, rlit "application"],
   rseq [rlit "linkedin", rstar .any, rlit "apply"],
   rlit "easy apply",
   rseq [rlit "talent", rstar .any, rlit "application"],
   rseq [rlit "recruitment", rstar .any, rlit "application"],
   rseq [rlit "hiring", rstar .any, rlit "application"],
   rseq [raltLits ["job", "position", "role"], rstar .any,
         raltLits ["application", "apply", "applied", "candidate", "resume", "cv"]],
   rseq [raltLits ["application", "apply", "applied", "candidate", "resume", "cv"], rstar .any,
         raltLits ["job", "position", "role"]]]

/-- Transcription of `/(?:job|position|role|career|opportunity)/i` -/
def jobKeywordsRE : RE := raltLits ["job", "position", "role", "career", "opportunity"]

/-- Transcription of `/(?:application|apply|applied|candidate|resume|cv|applicant)/i` -/
def applicationKeywordsRE : RE :=
  raltLits ["application", "apply", "applied", "candidate", "resume", "cv", "applicant"]

/-- Transcription of `/(?:application.*for|applied.*to|thank you for applying|application received)/i` -/
def subjectApplicationRE : RE :=
  ralt [rseq [rlit "application", rstar .any, rlit "for"],
        rseq [rlit "applied", rstar .any, rlit "to"],
        rlit "thank you for applying",
        rlit "application received"]

/-- Transcription of `EmailParser.isLinkedInApplication` (parser.js lines 53-104). -/
def isLinkedInApplication (message : EmailMessage) : Bool :=
  let subject := lowerStr message.subject
  let body := lowerStr message.body
  let htmlBody := lowerStr (message.htmlBody.getD "")
  let fromAddr := lowerStr message.fromAddr
  let combinedText := subject ++ " " ++ body ++ " " ++ htmlBody ++ " " ++ fromAddr
  let isFromLinkedInJobs := reTest fromLinkedInJobsRE fromAddr
  if isFromLinkedInJobs then true
  else
    let hasApplicationSubject := reTest applicationSubjectRE subject
    if hasApplicationSubject then true
    else
      let isExcluded := excludePatterns.any fun pattern => reTest pattern combinedText
      if isExcluded then false
      else
        let isLinkedIn := linkedInPatterns.any fun pattern => reTest pattern combinedText
        let hasJobKeywords := reTest jobKeywordsRE combinedText
        let hasApplicationKeywords := reTest applicationKeywordsRE combinedText
        let hasAttachments := !message.attachments.isEmpty
        isLinkedIn || (hasJobKeywords && hasApplicationKeywords) ||
          reTest subjectApplicationRE subject || (hasAttachments && hasJobKeywords)

/-! ## parser.js : name extraction -/

/-- The recurring name shape `[A-Z](?:\.\s*)?[A-Za-z]+(?:\s+[A-Z](?:\.\s*)?[A-Za-z]+)*`;
under the `i` flag `[A-Z]` matches any ASCII letter. -/
def nameCore (ci : Bool) : RE :=
  let up : RE := .cls (if ci then Char.isAlpha else Char.isUpper)
  rseq [up, ropt (rseq [rcharC '.', rstar wsp]), rplus (.cls Char.isAlpha),
        rstar (rseq [rplus wsp, up, ropt (rseq [rcharC '.', rstar wsp]),
                     rplus (.cls Char.isAlpha)])]

/-- Transcription of `(?:1st|2nd|3rd|\+)` -/
def connDegreeRE : RE := ralt [rlitC "1st", rlitC "2nd", rlitC "3rd", rlitC "+"]

/-- Transcription of `namePatterns` of `EmailParser.extractName`, in source order. -/
def namePatterns : List RE :=
  [rseq [rlit "new application:", rstar wsp, rplusL (.cls fun c => c != ':'),
         rlit "from", rplus wsp, .group (nameCore true)],
   rseq [rlit "job application", rstarL .any, rlit "from", rplus wsp, .group (nameCore true)],
   rseq [rlit "application", rstarL .any, rlit "from", rplus wsp, .group (nameCore true)],
   rseq [.bol, .group (nameCore false), rplus wsp, connDegreeRE, .eol],
   rseq [rcharC '\n', .group (nameCore false), rplus wsp, connDegreeRE, rcharC '\n'],
   rseq [.group (nameCore false), rplus wsp, connDegreeRE, rstar wsp, .eol],
   rseq [.bol, .group (nameCore true), rstar wsp, rcharC '\n', rstar .any,
         raltLits ["strategic", "marketing", "development", "engineering", "management",
                   "analysis", "design", "consulting"]],
   rseq [.bol, .group (nameCore false), rstar wsp, .eol],
   rseq [rcharC '\n', .group (nameCore false), rcharC '\n'],
   rseq [rcharC '<', raltLits ["strong", "b", "h1", "h2", "h3"],
         rstar (.cls fun c => c != '>'), rcharC '>', .group (nameCore true),
         rlit "</", raltLits ["strong", "b", "h1", "h2", "h3"], rcharC '>'],
   rseq [.wordB, .group (rseq [.cls Char.isUpper, rcharC '.', rstar wsp, .cls Char.isUpper,
         rplus (.cls Char.isLower),
         rstar (rseq [rplus wsp, .cls Char.isUpper, rplus (.cls Char.isLower)])]), .wordB],
   rseq [.wordB, .group (rseq [.cls Char.isUpper, ralt [rcharC '.', rplus (.cls Char.isLower)],
         rstar (rseq [rplus wsp, .cls Char.isUpper, ralt [rcharC '.', rplus (.cls Char.isLower)]]),
         rplus (rseq [rplus wsp, .cls Char.isUpper, rplus (.cls Char.isLower)])]), .wordB]]

/-- The `invalidPatterns` of `EmailParser.isValidName` (anchored exact-match
alternations, digits-only, no-letters, plus the stopword lists). -/
def invalidNamePatterns : List RE :=
  [rseq [.bos, raltLits nameInvalidList1, .eos],
   rseq [.bos, rplus digitR, .eos],
   rseq [.bos, rstar (.cls fun c => !c.isAlpha), .eos],
   rseq [.bos, raltLits nameInvalidList2, .eos],
   rseq [.bos, raltLits nameInvalidList3, .eos]]

/-- Transcription of `EmailParser.isValidName`. -/
def isValidName (name : String) : Bool :=
  if name.length < 2 || name.length > 100 then false
  else if !(containsCh Char.isAlpha name) then false
  else
    let hasValidInitial := reTest (rseq [.bos, .cls Char.isUpper, rcharC '.', rstar wsp,
                                         .cls Char.isUpper, .cls Char.isLower]) name
    let hasValidName := reTest (rseq [.bos, .cls Char.isUpper, rplus (.cls Char.isLower)]) name
    if !hasValidInitial && !hasValidName then false
    else !(invalidNamePatterns.any fun pattern => reTest pattern (trimStr name))

/-- Transcription of `EmailParser.extractName`: pattern-major loop over the sources
subject, plain body, HTML body. -/
def extractName (subject emailBody htmlBody : String) : Option String :=
  firstSome namePatterns fun pattern =>
    firstSome [subject, emailBody, htmlBody] fun source =>
      match matchCapture1 pattern source with
      | some raw =>
          let name := trimStr raw
          if isValidName name then some name else none
      | none => none


/-! ## parser.js : job-title extraction -/

/-- Transcription of `[|\s\-•·,]`, the separator class of the cleaning steps. -/
def sepClsT : RE := .cls fun c =>
  c == '|' || isSpaceChar c || c == '-' || c == '•' || c == '·' || c == ','

/-- Transcription of `(?:\s+(?:at|with|for|in|\n|\||•|·))`, the title terminator. -/
def titleTailRE : RE :=
  rseq [rplus wsp, ralt [rlit "at", rlit "with", rlit "for", rlit "in",
                         rcharC '\n', rcharC '|', rcharC '•', rcharC '·']]

/-- Transcription of `titlePatterns` of `EmailParser.extractJobTitle`, in source order. -/
def titlePatterns : List RE :=
  [rseq [rlit "new application:", rstar wsp, .group (rplusL (.cls fun c => c != ':')),
         rplus wsp, rlit "from", rplus wsp],
   rseq [rlit "job application", rstar (.cls fun c => c == ':' || isSpaceChar c),
         .group (rplusL (.cls fun c => c != '-' && c != '–')), rplus wsp, rlit "from", rplus wsp],
   rseq [rlit "application", rstar (.cls fun c => c == ':' || isSpaceChar c),
         .group (rplusL (.cls fun c => c != '-' && c != '–')), rplus wsp, rlit "from", rplus wsp],
   rseq [rlit "your job has a new applicant", rstar wsp, rcharC '\n', rstarL .any, rcharC '\n',
         .group (rplusL (.cls fun c => c != '·' && c != '\n')), rplus wsp, rlit "at", rplus wsp,
         rplusL (.cls fun c => c != '·' && c != '\n'), ralt [rcharC '·', .eos]],
   rseq [.group (rplusL (.cls fun c => c.isAlpha || isSpaceChar c)), rplus wsp, rlit "at",
         rplus wsp, rplusL (.cls fun c => c != '·' && c != '\n'), rcharC '·'],
   rseq [raltLits ["Senior", "Junior", "Lead", "Principal", "Staff", "Head of", "Director of",
                   "VP of", "Chief"], rplus wsp,
         .group (rplusL (.cls fun c => c.isAlpha || isSpaceChar c)), titleTailRE],
   rseq [.group (raltLits ["Full Stack", "Backend", "Frontend", "Data", "Software", "Web",
                           "Mobile", "Application", "System", "Network", "Database", "DevOps",
                           "QA", "Product", "Project", "Technical", "Business", "Content",
                           "Marketing", "Sales", "Operations", "Finance", "HR", "Legal"]),
         rplus wsp,
         raltLits ["Developer", "Engineer", "Manager", "Analyst", "Director", "Head", "Lead",
                   "Specialist", "Coordinator", "Executive"], titleTailRE],
   rseq [.group (raltLits ["Python", "Java", "JavaScript", "React", "Angular", "Node", "PHP",
                           "Ruby", "C++", "C#", "Go", "Kotlin", "Swift"]),
         rplus wsp, raltLits ["Developer", "Engineer", "Programmer"], titleTailRE],
   rseq [raltLits ["position", "job", "role", "title"],
         rstar (.cls fun c => c == ':' || isSpaceChar c),
         .group (rplusL (.cls fun c => c.isAlpha || isSpaceChar c)), titleTailRE],
   rseq [rcharC '<', raltLits ["h1", "h2", "h3", "strong", "b"],
         rstar (.cls fun c => c != '>'), rcharC '>',
         .group (rplusL (.cls fun c => c != '<')), rplus wsp,
         raltLits ["at", "position", "role", "job"],
         rlit "</", raltLits ["h1", "h2", "h3", "strong", "b"], rcharC '>']]

/-- Transcription of `EmailParser.cleanJobTitle`: separator trimming, noise-word removal,
character filtering, whitespace normalization. -/
def cleanJobTitle (title : String) : String :=
  if title = "" then ""
  else
    trimStr <|
      replaceAllRe (rplus wsp) " " <|
      replaceAllRe (.cls fun c =>
        !(isWordChar c || isSpaceChar c || c == '&' || c == '/' || c == '-')) " " <|
      replaceAllRe (wordAltRE titleNoiseList) "" <|
      replaceAllRe (rseq [rplus sepClsT, .eos]) "" <|
      replaceAllRe (rseq [.bos, rplus sepClsT]) "" title

/-- Transcription of `EmailParser.isValidJobTitle`. -/
def isValidJobTitle (title : String) : Bool :=
  if title.length < 3 || title.length > 150 then false
  else
    let validJobWords :=
      rseq [raltLits titleValidList1, ropt (rseq [rplus wsp, raltLits titleValidList2])]
    let invalidWords := rseq [.bos, raltLits titleInvalidList, .eos]
    reTest validJobWords title && !(reTest invalidWords (trimStr title))

/-- Transcription of `EmailParser.extractJobTitle`: pattern-major loop over the sources
subject, plain body, HTML body, with cleaning before validation. -/
def extractJobTitle (subject emailBody htmlBody : String) : Option String :=
  firstSome titlePatterns fun pattern =>
    firstSome [subject, emailBody, htmlBody] fun source =>
      match matchCapture1 pattern source with
      | some raw =>
          let title := cleanJobTitle (trimStr raw)
          if isValidJobTitle title then some title else none
      | none => none

/-! ## parser.js : location extraction -/

/-- Transcription of `[A-Z][a-z]+(?:\s+[A-Z][a-z]+)*` (case-sensitive form). -/
def cityCS : RE :=
  rseq [.cls Char.isUpper, rplus (.cls Char.isLower),
        rstar (rseq [rplus wsp, .cls Char.isUpper, rplus (.cls Char.isLower)])]

/-- The same shape under the `i` flag, where `[A-Z]` and `[a-z]` both
match any ASCII letter. -/
def cityCI : RE :=
  rseq [.cls Char.isAlpha, rplus (.cls Char.isAlpha),
        rstar (rseq [rplus wsp, .cls Char.isAlpha, rplus (.cls Char.isAlpha)])]

/-- Transcription of `City,\s*State,\s*Country` (three case-sensitive parts). -/
def threePartCS : RE :=
  rseq [cityCS, rcharC ',', rstar wsp, cityCS, rcharC ',', rstar wsp, cityCS]

/-- Transcription of `locationPatterns` of `EmailParser.extractLocation`, in source order. -/
def locationPatterns : List RE :=
  [rseq [ralt (["Strategic Marketing", "Marketing Transformation", "Product Marketing",
                "Excellence", "Go-To-Market", "Development", "Engineering", "Management",
                "Analysis", "Design", "Consulting", "Sales", "Operations", "Finance", "HR",
                "Legal", "Technical", "Business", "Content"].map rlitC),
         rstar (.cls fun c => c != '.' && c != '\n'), rcharC '\n', rstar wsp,
         .group threePartCS, rstar wsp, .eol],
   rseq [.cls (fun c => c == '·' || c == '•'), rstar wsp, .group threePartCS, rstar wsp, .eol],
   rseq [.wordB, .group (rseq [cityCS, rcharC ',', rstar wsp, cityCS, rcharC ',', rstar wsp,
         ralt (p3CountriesList.map rlitC)]), .wordB],
   rseq [.wordB, .group (rseq [cityCI, rcharC ',', rstar wsp, raltLits p4CountriesList]),
         .wordB],
   rseq [.wordB, .group (rseq [raltLits p5CitiesList, ropt (rcharC ','), rstar wsp,
         raltLits p5StatesList, ropt (rseq [ropt (rcharC ','), rstar wsp, rlit "India"])]),
         .wordB],
   rseq [raltLits ["location", "based in", "from", "lives in", "city"],
         rplus (.cls fun c => c == ':' || isSpaceChar c),
         .group (rseq [cityCI, .star (rseq [rcharC ',', rstar wsp, cityCI]) false]),
         ralt [rseq [rstar wsp, .cls fun c => c == '|' || c == '\n' || c == '•' || c == '·'],
               .eos]],
   rseq [.bol, rstar wsp, .group (rseq [cityCS, rcharC ',', rstar wsp, cityCS]), rstar wsp,
         .eol]]

/-- Transcription of `[\w.-]`, the local/domain class of the inline e-mail pattern. -/
def emailChCls : RE := .cls fun c => isWordChar c || c == '.' || c == '-'

/-- Transcription of `[-.\s]?`, the phone separator. -/
def phoneSepOpt : RE := ropt (.cls fun c => c == '-' || c == '.' || isSpaceChar c)

/-- The inline phone-number pattern of `cleanLocation`. -/
def phoneRE : RE :=
  rseq [ropt (rseq [rcharC '+', rrange digitR 1 3, phoneSepOpt]), ropt (rcharC '('),
        rrange digitR 1 4, ropt (rcharC ')'), phoneSepOpt, rrange digitR 1 4, phoneSepOpt,
        rrange digitR 1 4, phoneSepOpt, rrange digitR 1 9]

/-- The final job/skill gate of `cleanLocation` (`jobTermPattern`). -/
def jobTermPatternRE : RE := wordAltRE jobTermPatternList

/-- Transcription of `EmailParser.cleanLocation`: separator trimming, removal of
job/skill vocabulary, technology names, e-mails, phone numbers and
URLs, character filtering, comma/whitespace normalization, and the
final job-term rejection gate. -/
def locCleaned (location : String) : String :=
  trimStr <|
        replaceAllRe (rplus wsp) " " <|
        replaceAllRe (rseq [.wordB, .cls Char.isAlpha, .wordB]) "" <|
        replaceAllRe (rseq [.wordB, rplus digitR, .wordB]) "" <|
        replaceAllRe (rseq [.bos, rstar wsp, rcharC ',']) "" <|
        replaceAllRe (rseq [rcharC ',', rstar wsp, .eos]) "" <|
        replaceAllRe (rseq [rplus wsp, rcharC ',']) "," <|
        replaceAllRe (rseq [rstar wsp, rcharC ',', rstar wsp]) ", " <|
        replaceAllRe (rseq [rcharC ',', rstar wsp, rcharC ',']) "," <|
        replaceAllRe (rplus wsp) " " <|
        replaceAllRe (.cls fun c =>
          !(isWordChar c || isSpaceChar c || c == ',' || c == '.' || c == '-')) " " <|
        replaceAllRe (rseq [rlitC "www.", rplus (.cls fun c => !isSpaceChar c)]) "" <|
        replaceAllRe (rseq [rlitC "http", ropt (rcharC 's'), rlitC "://",
                            rplus (.cls fun c => !isSpaceChar c)]) "" <|
        replaceAllRe phoneRE "" <|
        replaceAllRe (rseq [rplus emailChCls, rcharC '@', rplus emailChCls, rcharC '.',
                            rplus wordR]) "" <|
        replaceAllRe (wordAltRE stripTechTermsList) "" <|
        replaceAllRe (wordAltRE stripJobTermsList) "" <|
        replaceAllRe (rseq [rplus sepClsT, .eos]) "" <|
        replaceAllRe (rseq [.bos, rplus sepClsT]) "" location

def cleanLocation (location : String) : String :=
  if location = "" then ""
  else if reTest jobTermPatternRE (locCleaned location) then "" else locCleaned location

/-- The `invalidPatterns` of `EmailParser.isValidLocation`. -/
def invalidLocPatterns : List RE :=
  [rseq [.bos, raltLits invalidLocList1, .eos],
   rseq [.bos, rplus digitR, .eos],
   rseq [.bos, rplus (.cls fun c => c.isDigit || isSpaceChar c || c == ',' || c == '.' ||
                                    c == '-'), .eos],
   rseq [.bos, raltLits invalidLocList2, .eos],
   rseq [.bos, ralt invalidLocList3, .eos],
   rcharC '|',
   rlit "excellence",
   rseq [rlit "strategic", rstar .any, rlit "marketing"],
   rseq [rlit "marketing", rstar .any, rlit "transformation"],
   rseq [rlit "go", rstar .any, rlit "to", rstar .any, rlit "market"],
   rseq [rlit "product", rstar .any, rlit "marketing"]]

/-- The `locationKeywords` of `EmailParser.isValidLocation`. -/
def locationKeywordPatterns : List RE :=
  [wordAltRE kwCountriesList, wordAltRE kwUsStatesList, wordAltRE kwIndianStatesList,
   rcharC ',', wordAltRE kwCitiesList]

/-- JS `location.split(',')`. -/
def splitCommaAux : List Char → List Char → List String
  | [], acc => [String.mk acc.reverse]
  | c :: cs, acc =>
      if c == ',' then String.mk acc.reverse :: splitCommaAux cs []
      else splitCommaAux cs (c :: acc)

def splitComma (s : String) : List String := splitCommaAux s.data []

/-- Transcription of `EmailParser.isValidLocation`. -/
def isValidLocation (location : String) : Bool :=
  if location.length < 2 || location.length > 150 then false
  else
    let isInvalid := invalidLocPatterns.any fun pattern => reTest pattern (trimStr location)
    if isInvalid then false
    else if !(containsCh Char.isAlpha location) then false
    else
      let hasValidLocationWords :=
        locationKeywordPatterns.any fun pattern => reTest pattern location
      let hasCommaFormat :=
        containsCh (fun c => c == ',') location && (splitComma location).length ≥ 2
      let hasAlphaChars := containsCh Char.isAlpha location
      hasAlphaChars && (hasValidLocationWords || hasCommaFormat)

/-- Transcription of `EmailParser.extractLocation`: source-major loop over the cleaned
body, cleaned HTML, raw body and raw HTML (the subject is not a
source), pattern order inside each source. -/
def extractLocation (emailBody htmlBody : String) : Option String :=
  let cleanBody := cleanTextForParsing emailBody
  let cleanHtml := cleanTextForParsing htmlBody
  firstSome [cleanBody, cleanHtml, emailBody, htmlBody] fun source =>
    firstSome locationPatterns fun pattern =>
      match matchCapture1 pattern source with
      | some raw =>
          let location := cleanLocation (trimStr raw)
          if isValidLocation location then some location else none
      | none => none


/-! ## parser.js : compensation extraction -/

def natOfDigits (l : List Char) : Nat :=
  l.foldl (fun n c => n * 10 + (c.toNat - '0'.toNat)) 0

/-- JS `parseFloat` on the digit/dot strings produced by
`cleanCompensation` (leading digits, optionally a dot and further
digits; anything after a second dot is ignored), decoded exactly as a
decimal `(mantissa, scale)` with value `mantissa / 10 ^ scale`; `none`
models `NaN`.  The pair avoids `Rat` normalization so that the
extractors stay kernel-computable; `partsVal` gives the rational
value for specification purposes. -/
def parseFloatParts (s : String) : Option (Nat × Nat) :=
  let l := s.data
  let d1 := l.takeWhile Char.isDigit
  let rest := l.drop d1.length
  let d2 := match rest with
    | '.' :: r2 => r2.takeWhile Char.isDigit
    | _ => []
  if d1.isEmpty && d2.isEmpty then none
  else some (natOfDigits (d1 ++ d2), d2.length)

/-- The rational value of a decoded decimal. -/
def partsVal (p : Nat × Nat) : ℚ := (p.1 : ℚ) / (10 : ℚ) ^ p.2

/-- Transcription of `([0-9]+(?:\.[0-9]+)?)`, the captured figure. -/
def numCap : RE := .group (rseq [rplus digitR, ropt (rseq [rcharC '.', rplus digitR])])

/-- Transcription of `[?\s:]*` -/
def qscStar : RE := rstar (.cls fun c => c == '?' || isSpaceChar c || c == ':')

/-- Transcription of `(?:INR|Rs\.?|₹)?` -/
def currencyOpt : RE :=
  ropt (ralt [rlit "inr", rseq [rlit "rs", ropt (rcharC '.')], rchar '₹'])

/-- Transcription of `compensationPatterns` of `EmailParser.extractCompensation`, in
source order (pattern 5 carries the `s` flag). -/
def compensationPatterns : List RE :=
  [rseq [raltLits ["current", "annual", "yearly", "present"], rplus wsp,
         raltLits ["ctc", "compensation", "salary", "package"], qscStar,
         ropt (ralt [rlit "inr", rseq [rlit "rs", ropt (rcharC '.')], rchar '₹', rlit "is"]),
         rstar wsp, numCap, rstar wsp,
         ropt (ralt [rlit "lpa", rlit "lakh", rlit "lakhs", rlit "lac", rlit "lacs",
                     rlit "crore", rlit "crores", rseq [rlit "per", rplus wsp, rlit "annum"],
                     rlit "pa"])],
   rseq [rlit "what", rplus wsp, rlit "is", rplus wsp, rlit "your", rplus wsp, rlit "current",
         rplus wsp, ropt (rseq [rlit "annual", rplus wsp]), rlit "ctc", qscStar, currencyOpt,
         rstar wsp, numCap, rstar wsp,
         ropt (ralt [rlit "lpa", rlit "lakh", rlit "lakhs", rlit "lac", rlit "lacs",
                     rlit "crore", rlit "crores"])],
   rseq [rlit "ctc", qscStar, currencyOpt, rstar wsp, numCap, rstar wsp,
         ralt [rlit "lpa", rlit "lakh", rlit "lakhs", rlit "lac", rlit "lacs",
               rseq [rlit "per", rplus wsp, rlit "annum"], rlit "pa"]],
   rseq [rlit "expected", rplus wsp, raltLits ["salary", "compensation", "ctc", "package"],
         qscStar, currencyOpt, rstar wsp, numCap, rstar wsp,
         ropt (ralt [rlit "lpa", rlit "lakh", rlit "lakhs", rlit "lac", rlit "lacs",
                     rlit "crore", rlit "crores", rseq [rlit "per", rplus wsp, rlit "annum"]])],
   rseq [raltLits ["screening", "question"], rstarL .anyS,
         raltLits ["ctc", "salary", "compensation"], qscStar, currencyOpt, rstar wsp, numCap,
         rstar wsp,
         ropt (ralt [rlit "lpa", rlit "lakh", rlit "lakhs", rlit "lac", rlit "lacs",
                     rlit "crore", rlit "crores"])],
   rseq [rlit "salary", rplus wsp, rlit "expectation", qscStar, currencyOpt, rstar wsp, numCap,
         rstar wsp,
         ropt (ralt [rlit "lpa", rlit "lakh", rlit "lakhs", rlit "lac", rlit "lacs",
                     rlit "crore", rlit "crores"])],
   rseq [ralt [rlit "inr", rseq [rlit "rs", ropt (rcharC '.')], rchar '₹'], rstar wsp,
         .group (rseq [rplus digitR,
                       rstar (rseq [.cls (fun c => c == ',' || isSpaceChar c), rplus digitR]),
                       ropt (rseq [rcharC '.', rplus digitR])]),
         rstar wsp,
         ralt [rlit "lpa", rlit "lakh", rlit "lakhs", rlit "lac", rlit "lacs",
               rseq [rlit "per", rplus wsp, rlit "annum"], rlit "pa"]],
   rseq [numCap, rstar wsp,
         ralt [rlit "lpa", rlit "lakh", rlit "lakhs", rlit "lac", rlit "lacs"]]]

/-- The `cleaned` string of `EmailParser.cleanCompensation`:
`.replace(/[,\s]/g, '').replace(/[^\d.]/g, '')`. -/
def compCleaned (compensation : String) : String :=
  replaceAllRe (.cls fun c => !(c.isDigit || c == '.')) "" <|
    replaceAllRe (.cls fun c => c == ',' || isSpaceChar c) "" compensation

/-- Transcription of `EmailParser.cleanCompensation`: strip separators, keep digits/dots,
accept only a positive figure strictly below 1000 (`num && num > 0 &&
num < 1000 ? cleaned : null`; `parseFloat` yielding `NaN` or `0` is
falsy). -/
def cleanCompensation (compensation : String) : Option String :=
  match parseFloatParts (compCleaned compensation) with
  | some num =>
      if 0 < num.1 ∧ num.1 < 1000 * 10 ^ num.2 then some (compCleaned compensation) else none
  | none => none

/-- Transcription of `EmailParser.extractCompensation`: source-major loop over cleaned
body, cleaned HTML, raw body, raw HTML. -/
def extractCompensation (emailBody htmlBody : String) : Option String :=
  let cleanBody := cleanTextForParsing emailBody
  let cleanHtml := cleanTextForParsing htmlBody
  firstSome [cleanBody, cleanHtml, emailBody, htmlBody] fun source =>
    firstSome compensationPatterns fun pattern =>
      match matchCapture1 pattern source with
      | some raw =>
          match cleanCompensation raw with
          | some compensation =>
              if (match parseFloatParts compensation with
                  | some q => decide (0 < q.1)
                  | none => false)
              then some compensation else none
          | none => none
      | none => none

/-! ## parser.js : screening-question extraction -/

/-- Transcription of `qualifications?` / `questions?` / `years?` (optional final char). -/
def optS (stem : String) : RE := rseq [rlit stem, ropt (rchar 's')]

/-- A screening pattern: either a plain `match` pattern (the capture is
`match[1]`) or a `g`-flagged pattern, for which JS `String.match`
returns the array of full matches so that `match[1]` is the second full
match. -/
inductive ScreenPat where
  | norm (r : RE)
  | globalSecond (r : RE)

/-- Transcription of `screeningPatterns` of `EmailParser.extractScreeningQuestions`, in
source order; every pattern carries `i` and `s`, pattern 6 also `g`. -/
def screeningPatterns : List ScreenPat :=
  [.norm (rseq [.group (rseq [rplus digitR, rplus wsp, rlit "out", rplus wsp, rlit "of",
          rplus wsp, rplus digitR, rplus wsp, ropt (rseq [rlit "preferred", rplus wsp]),
          optS "qualification", rplus wsp, rlit "met", rstarL .anyS]),
        .look (ralt [raltLits ["current experience", "past experience", "skills", "education",
                               "view all", "show less", "view applicant", "regards", "best",
                               "thank"], .eos])]),
   .norm (rseq [rlit "screening", rplus wsp, ralt [optS "qualification", optS "question"],
        rplus (.cls fun c => c == ':' || isSpaceChar c || c == '\n'), .group (rstarL .anyS),
        .look (ralt [ralt [rlit "skills", rlit "experience", rlit "education",
                           rlit "additional", rlit "contact",
                           rseq [rlit "view", rplus wsp, rlit "all"],
                           rseq [rlit "show", rplus wsp, rlit "less"], rlit "regards",
                           rlit "best", rlit "thank"], .eos])]),
   .norm (rseq [.group (rseq [rlit "preferred", rplus wsp, optS "qualification",
          rstarL .anyS, rlit "met", rstarL .anyS]),
        .look (ralt [ralt [rlit "skills", rlit "experience", rlit "education",
                           rlit "additional", rlit "contact",
                           rseq [rlit "view", rplus wsp, rlit "all"],
                           rseq [rlit "show", rplus wsp, rlit "less"], rlit "regards",
                           rlit "best", rlit "thank"], .eos])]),
   .norm (rseq [.group (rseq [optS "qualification", rplus wsp, rlit "met",
          rplus (.cls fun c => c == ':' || isSpaceChar c || c == '\n'), rstarL .anyS]),
        .look (ralt [ralt [rlit "skills", rlit "experience", rlit "education",
                           rseq [rlit "view", rplus wsp, rlit "all"],
                           rseq [rlit "show", rplus wsp, rlit "less"], rlit "regards",
                           rlit "best", rlit "thank"], .eos])]),
   .norm (rseq [.group (rseq [rlit "How many years of work experience do you have with",
          rstarL .anyS]),
        .look (ralt [raltLits ["current experience", "past experience", "skills", "education",
                               "view all", "show less", "view applicant"], .eos])]),
   .globalSecond (rseq [.group (rseq [ralt [rseq [rlit "what", rplus wsp, rlit "is"],
          rseq [rlit "how", rplus wsp, rlit "many"], rseq [rlit "do", rplus wsp, rlit "you"],
          rseq [rlit "are", rplus wsp, rlit "you"], rseq [rlit "can", rplus wsp, rlit "you"]],
          rstarL .anyS,
          ralt [rlit "ctc", rlit "experience", optS "year", rlit "willing", rlit "available",
                rlit "python", rlit "programming", rlit "java", rlit "javascript",
                rlit "react", rlit "angular", rlit "node", rlit "php", rlit "ruby",
                rlit "html", rlit "css", rlit "sql", rlit "database", rlit "framework",
                rlit "library", rlit "technology", rlit "skill", rlit "qualification",
                rlit "certification", rlit "degree", rlit "education", rlit "training",
                rlit "course", rlit "bootcamp", rlit "university", rlit "college",
                rlit "school"],
          rstarL .anyS]),
        .look (ralt [ralt [rlit "skills", rlit "experience", rlit "education", rlit "contact",
                           rseq [rlit "view", rplus wsp, rlit "profile"], rlit "regards",
                           rlit "best", rlit "thank"], .eos])]),
   .norm (rseq [.group (rseq [rstarL .anyS,
          ralt [rlit "ctc", rlit "compensation", rlit "salary", rlit "experience",
                optS "year"], rstarL .anyS]),
        .look (ralt [ralt [rlit "skills", rlit "education", rlit "contact",
                           rseq [rlit "view", rplus wsp, rlit "profile"], rlit "regards",
                           rlit "best", rlit "thank"], .eos])]),
   .norm (rseq [.group (rseq [rlit "screening", rstarL .anyS]),
        .look (ralt [ralt [rlit "skills", rlit "education", rlit "contact",
                           rseq [rlit "view", rplus wsp, rlit "profile"], rlit "additional",
                           rlit "regards", rlit "best", rlit "thank"], .eos])])]

/-- The candidate text a screening pattern yields on a source (with the
JS truthiness check on `match[1]`). -/
def screeningCandidate (p : ScreenPat) (source : String) : Option String :=
  match p with
  | .norm r => matchCapture1 r source
  | .globalSecond r =>
    match (matchAllFull r source).get? 1 with
    | some m => if m = "" then none else some m
    | none => none

/-- Transcription of `EmailParser.cleanScreeningQuestions`. -/
def cleanScreeningQuestions (questions : String) : String :=
  trimStr <|
    replaceAllRe (rseq [.bos, rstar wsp, rlit "screening", rstar wsp, ropt (rcharC ':'),
                        rstar wsp]) "" <|
    replaceAllRe (.cls fun c => c == '•' || c == '-' || c == '|') "" <|
    replaceAllRe (rplus (rcharC '\n')) "\n" <|
    replaceAllRe (rplus wsp) " " questions

/-- Transcription of `EmailParser.extractScreeningQuestions`: source-major loop; a
candidate is kept only if the cleaned text is longer than 15
characters. -/
def extractScreeningQuestions (emailBody htmlBody : String) : Option String :=
  let cleanBody := cleanTextForParsing emailBody
  let cleanHtml := cleanTextForParsing htmlBody
  firstSome [cleanBody, cleanHtml, emailBody, htmlBody] fun source =>
    firstSome screeningPatterns fun pattern =>
      match screeningCandidate pattern source with
      | some raw =>
          let questions := cleanScreeningQuestions raw
          if questions.length > 15 then some questions else none
      | none => none

/-! ## parser.js : project-id extraction -/

def squoteCh : Char := Char.ofNat 39

/-- Transcription of `[=:]` -/
def eqColonCls : RE := .cls fun c => c == '=' || c == ':'

/-- Transcription of `[^"'\s]` -/
def notQuoteSpace : RE := .cls fun c => !(c == '"' || c == squoteCh || isSpaceChar c)

/-- Transcription of `[:\s#]*` -/
def colonHashStar : RE := rstar (.cls fun c => c == ':' || isSpaceChar c || c == '#')

/-- Transcription of `projectIdPatterns` of `EmailParser.extractProjectId`, in source order. -/
def projectIdPatterns : List RE :=
  [rseq [raltLits ["project", "jobid", "posting", "job"], eqColonCls,
         .group (ratLeast digitR 6)],
   rseq [rlit "linkedin.com", rstar notQuoteSpace,
         raltLits ["project", "posting", "job", "currentjobid"], eqColonCls,
         .group (ratLeast digitR 6)],
   rseq [raltLits ["tracking", "view", "redirect", "apply"], rstar notQuoteSpace,
         raltLits ["project", "job"], eqColonCls, .group (ratLeast digitR 6)],
   rseq [rlit "currentjobid", eqColonCls, .group (ratLeast digitR 6)],
   rseq [rlit "jobid", eqColonCls, .group (ratLeast digitR 6)],
   rseq [rlit "job", rplus wsp, raltLits ["id", "reference", "number", "posting"],
         colonHashStar, .group (ratLeast digitR 6)],
   rseq [rlit "project", rplus wsp, raltLits ["id", "reference", "number"], colonHashStar,
         .group (ratLeast digitR 6)],
   rseq [rlit "posting", rplus wsp, raltLits ["id", "reference", "number"], colonHashStar,
         .group (ratLeast digitR 6)],
   rseq [rlit "application", rplus wsp, raltLits ["id", "reference", "number"], colonHashStar,
         .group (ratLeast digitR 6)],
   rseq [rlit "href=", .cls (fun c => c == squoteCh || c == '"'),
         rstar (.cls fun c => !(c == squoteCh || c == '"')),
         raltLits ["project", "job", "posting", "currentjobid"], eqColonCls,
         .group (ratLeast digitR 6)],
   rseq [rlit "href=", .cls (fun c => c == squoteCh || c == '"'),
         rstar (.cls fun c => !(c == squoteCh || c == '"')), rcharC '/',
         .group (ratLeast digitR 10), .cls (fun c => c == squoteCh || c == '"')],
   rseq [rlit "linkedin.com/jobs/view/", .group (ratLeast digitR 6)],
   rseq [rlit "linkedin.com/", rstar notQuoteSpace, rcharC '/',
         .group (ratLeast digitR 10)]]

/-- Transcription of `EmailParser.extractProjectId`: source-major loop with sources
HTML body first, then plain body, then subject; a captured id is
accepted when its length is between 6 and 15 digits. -/
def extractProjectId (emailBody htmlBody subject : String) : Option String :=
  firstSome [htmlBody, emailBody, subject] fun source =>
    firstSome projectIdPatterns fun pattern =>
      match matchCapture1 pattern source with
      | some projectId =>
          if 6 ≤ projectId.length && projectId.length ≤ 15 then some projectId else none
      | none => none

/-! ## parser.js : parseLinkedInApplication -/

/-- The `CandidateRecord` fragment produced by the field extractor:
exactly the six fields of the `result` object of
`parseLinkedInApplication`, each a string or null. -/
structure ParsedApplication where
  name : Option String
  title : Option String
  location : Option String
  expected_compensation : Option String
  project_id : Option String
  screening_questions : Option String
  deriving DecidableEq

/-- Transcription of `EmailParser.parseLinkedInApplication` (parser.js lines 106-135). -/
def parseLinkedInApplication (message : EmailMessage) : ParsedApplication :=
  let subject := message.subject
  let emailBody := message.body
  let htmlBody := message.htmlBody.getD ""
  { name := extractName subject emailBody htmlBody,
    title := extractJobTitle subject emailBody htmlBody,
    location := extractLocation emailBody htmlBody,
    expected_compensation := extractCompensation emailBody htmlBody,
    project_id := extractProjectId emailBody htmlBody subject,
    screening_questions := extractScreeningQuestions emailBody htmlBody }


/-! ## Contact resolution: openai.js validation and main.js merge -/

/-- A JS string-or-null contact field; `some ""` models the empty
string, which is falsy in JS. -/
def jsOrNull (v : Option String) : Option String :=
  match v with
  | some s => if s = "" then none else some s
  | none => none

/-- The three contact fields of the LLM JSON object
`(mobile_number, email, linkedin_url)`, nulls allowed. -/
structure RawContactInfo where
  mobile_number : Option String
  email : Option String
  linkedin_url : Option String
  deriving DecidableEq

/-- The validation step of `OpenAIService.extractContactInfo`
(openai.js lines 65-69): each field of the parsed JSON is normalized
with `|| null`, so the service returns `null` or a non-empty string per
field. -/
def validateContactInfo (raw : RawContactInfo) : RawContactInfo :=
  { mobile_number := jsOrNull raw.mobile_number,
    email := jsOrNull raw.email,
    linkedin_url := jsOrNull raw.linkedin_url }

/-- The resolved contact record of `processMessage` (`email` is always
a string there: the merge only runs after a non-null direct-scan
email was found). -/
structure ContactInfo where
  mobile_number : Option String
  email : String
  linkedin_url : Option String
  deriving DecidableEq

/-- The contact-info merge of `ApplicantProcessor.processMessage`
(main.js lines 813-818): `mobile_number: gpt.mobile_number || null`,
`email: gpt.email || applicantEmail`, `linkedin_url: gpt.linkedin_url
|| null`. -/
def mergeContactInfo (gptContactInfo : RawContactInfo) (applicantEmail : String) : ContactInfo :=
  { mobile_number := jsOrNull gptContactInfo.mobile_number,
    email := match gptContactInfo.email with
      | some e => if e = "" then applicantEmail else e
      | none => applicantEmail,
    linkedin_url := jsOrNull gptContactInfo.linkedin_url }

/-! ## storage.js : the processing ledger -/

/-- The diagnostic metadata recorded with a ledger row (subject, skip
reason, error detail — the fields `processMessage` actually passes). -/
structure DiagMeta where
  subject : String
  skipReason : Option String
  errorMsg : Option String
  deriving DecidableEq

/-- One row of the `processed_messages` table. -/
structure LedgerRow where
  message_id : String
  status : String
  processed_at : Nat
  metadata : Option DiagMeta
  error_details : Option String
  deriving DecidableEq

/-- The Supabase `upsert` with `onConflict: 'message_id'`: update the
row(s) with the same key if present, insert otherwise. -/
def upsertRow (db : List LedgerRow) (row : LedgerRow) : List LedgerRow :=
  if db.any (fun r => r.message_id == row.message_id) then
    db.map fun r => if r.message_id == row.message_id then row else r
  else db ++ [row]

/-- The row built by `StorageManager.markProcessed` (storage.js lines
131-137), including `error_details: status === 'error' ?
metadata?.error : null`. -/
def mkRow (messageId status : String) (now : Nat) (metadata : Option DiagMeta) : LedgerRow :=
  { message_id := messageId, status := status, processed_at := now, metadata := metadata,
    error_details := if status == "error" then metadata.bind (fun m => m.errorMsg) else none }

/-- Transcription of `StorageManager.markProcessed` (storage.js lines 129-156).
`writeOk` injects the success/failure of the underlying Supabase
upsert; a failure is caught and logged, the call returns normally and
the ledger is unchanged. -/
def markProcessed (writeOk : Bool) (db : List LedgerRow) (messageId status : String)
    (now : Nat) (metadata : Option DiagMeta) : List LedgerRow :=
  if writeOk then upsertRow db (mkRow messageId status now metadata) else db

/-- The result of the `.single()` lookup of `isProcessed`: a row, the
`PGRST116` no-row outcome, or any other database error. -/
inductive DbRead where
  | found (row : LedgerRow)
  | notFound
  | failure

def readSingle (db : List LedgerRow) (lookupOk : Bool) (messageId : String) : DbRead :=
  if lookupOk then
    match db.find? (fun r => r.message_id == messageId) with
    | some r => .found r
    | none => .notFound
  else .failure

/-- Transcription of `StorageManager.isProcessed` (storage.js lines 102-127): a
`PGRST116` (no row) outcome yields `false`; any other error is thrown,
caught, and also yields `false` ("assume not processed on error"). -/
def isProcessed (db : List LedgerRow) (lookupOk : Bool) (messageId : String) : Bool :=
  match readSingle db lookupOk messageId with
  | .found _ => true
  | .notFound => false
  | .failure => false

/-- Transcription of `StorageManager.cleanupOldRecords` (storage.js lines 182-202): the
age-based retention sweep deletes exactly the rows older than the
cutoff. -/
def cleanupOldRecords (db : List LedgerRow) (cutoff : Nat) : List LedgerRow :=
  db.filter fun r => !(r.processed_at < cutoff)

/-! ## main.js : the orchestrator -/

/-- The message as the orchestrator sees it (identifier and subject;
everything derived from the content is in `PMEnv`). -/
structure OrchMessage where
  id : String
  subject : String
  deriving DecidableEq

/-- The outcomes of the collaborators and of the content-derived checks
during one `processMessage` call.  `lookupOk`/`writeOk` inject the
success of the ledger read/write, `isApp` is the classifier verdict on
the message content, `tooOld` the age-filter verdict, `parsedName` and
`applicantEmail` the extraction results, `gptResult` the parsed LLM
contact JSON (`none` when GPT is disabled, there is no resume text, or
the call failed — all swallowed), `persistOk` the success of the
sheet/database persistence writes, `dryRun` the `DRY_RUN` flag. -/
structure PMEnv where
  lookupOk : Bool
  writeOk : Bool
  isApp : Bool
  tooOld : Bool
  parsedName : Option String
  applicantEmail : Option String
  gptResult : Option RawContactInfo
  persistOk : Bool
  dryRun : Bool
  now : Nat

/-- What one `processMessage` call produced. -/
inductive PMOutcome where
  | skippedAlready
  | skipped (reason : String)
  | success
  deriving DecidableEq

/-- The state after one `processMessage` call: the ledger, the
persistence-sink writes performed (tagged with the sink name and the
message id), and the outcome — `Except.error` models the exception
rethrown to the per-message loop after the ledger was marked
`error`. -/
structure PMResult where
  db : List LedgerRow
  sinkWrites : List (String × String)
  result : Except String PMOutcome

/-- Transcription of `ApplicantProcessor.processMessage` (main.js lines 623-893),
control flow on the ledger and the persistence sinks:

1. skip immediately (no write) when `isProcessed` is true;
2. mark `skipped` when the message is not a LinkedIn application or is
   too old (the age reason overwrites the classifier reason);
3. mark `skipped` when no applicant name, or no applicant email, was
   extracted;
4. otherwise merge the LLM contact info, perform the sink writes
   (unless `DRY_RUN`), and mark `success`;
5. an exception during persistence is caught, the ledger is marked
   `error` with the message in the metadata, and the exception is
   rethrown. -/
def processMessage (env : PMEnv) (db0 : List LedgerRow) (msg : OrchMessage) : PMResult :=
  if isProcessed db0 env.lookupOk msg.id then
    { db := db0, sinkWrites := [], result := .ok .skippedAlready }
  else
    let skipReason : Option String :=
      if env.tooOld then some "Too old"
      else if !env.isApp then some "Not LinkedIn application"
      else none
    match skipReason with
    | some reason =>
        { db := markProcessed env.writeOk db0 msg.id "skipped" env.now
            (some ⟨msg.subject, some reason, none⟩),
          sinkWrites := [], result := .ok (.skipped reason) }
    | none =>
      match env.parsedName with
      | none =>
          { db := markProcessed env.writeOk db0 msg.id "skipped" env.now
              (some ⟨msg.subject, some "No applicant name found", none⟩),
            sinkWrites := [], result := .ok (.skipped "No applicant name found") }
      | some nm =>
        if trimStr nm = "" then
          { db := markProcessed env.writeOk db0 msg.id "skipped" env.now
              (some ⟨msg.subject, some "No applicant name found", none⟩),
            sinkWrites := [], result := .ok (.skipped "No applicant name found") }
        else
          match env.applicantEmail with
          | none =>
              { db := markProcessed env.writeOk db0 msg.id "skipped" env.now
                  (some ⟨msg.subject, some "No email found", none⟩),
                sinkWrites := [], result := .ok (.skipped "No email found") }
          | some applicantEmail =>
            let _contactInfo : ContactInfo :=
              match env.gptResult with
              | some gpt => mergeContactInfo (validateContactInfo gpt) applicantEmail
              | none => { mobile_number := none, email := applicantEmail,
                          linkedin_url := none }
            if env.persistOk then
              { db := markProcessed env.writeOk db0 msg.id "success" env.now
                  (some ⟨msg.subject, none, none⟩),
                sinkWrites :=
                  if env.dryRun then []
                  else [("sheets", msg.id), ("supabase", msg.id)],
                result := .ok .success }
            else
              { db := markProcessed env.writeOk db0 msg.id "error" env.now
                  (some ⟨msg.subject, none, some "persist failed"⟩),
                sinkWrites := [], result := .error "persist failed" }

/-- Transcription of `ApplicantProcessor.processEmails` (main.js lines 575-620), the
per-message loop: each message is attempted in order; a `thrown`
result from `processMessage` is caught, counted, and the loop
continues with the next message.  Returns the final ledger, the ids
attempted in order, and the error count. -/
def processEmails (envOf : OrchMessage → PMEnv) (db0 : List LedgerRow) :
    List OrchMessage → List LedgerRow × List String × Nat
  | [] => (db0, [], 0)
  | msg :: rest =>
    let r := processMessage (envOf msg) db0 msg
    let (dbf, ids, errs) := processEmails envOf r.db rest
    (dbf, msg.id :: ids, match r.result with | .error _ => errs + 1 | .ok _ => errs)

/-- Does the ledger hold a row for this message id? -/
def hasRow (db : List LedgerRow) (messageId : String) : Bool :=
  db.any fun r => r.message_id == messageId

/-- The rows of the ledger for one message id. -/
def rowsFor (db : List LedgerRow) (messageId : String) : List LedgerRow :=
  db.filter fun r => r.message_id == messageId

/-- The at-most-one-row-per-id ledger invariant. -/
def OneRowPerId (db : List LedgerRow) : Prop :=
  ∀ messageId : String, (rowsFor db messageId).length ≤ 1


/-! ## Source-decomposition of the source-major extractors -/

/-- Plain `Option` fallback (JS early-`return` composition). -/
def orElseO (a b : Option α) : Option α :=
  match a with
  | some x => some x
  | none => b

/-- The inner pattern loop of `extractProjectId` on one source. -/
def projectIdFromSource (source : String) : Option String :=
  firstSome projectIdPatterns fun pattern =>
    match matchCapture1 pattern source with
    | some projectId =>
        if 6 ≤ projectId.length && projectId.length ≤ 15 then some projectId else none
    | none => none

/-- The inner pattern loop of `extractLocation` on one source. -/
def locationFromSource (source : String) : Option String :=
  firstSome locationPatterns fun pattern =>
    match matchCapture1 pattern source with
    | some raw =>
        let location := cleanLocation (trimStr raw)
        if isValidLocation location then some location else none
    | none => none


/-! ## Shared lemmas -/

theorem optionShape (o : Option α) : o = none ∨ ∃ v, o = some v := by
  cases o with
  | none => exact Or.inl rfl
  | some v => exact Or.inr ⟨v, rfl⟩

theorem firstSome_eq_some {l : List α} {f : α → Option β} {b : β}
    (h : firstSome l f = some b) : ∃ a ∈ l, f a = some b := by
  induction l with
  | nil => simp [firstSome] at h
  | cons a t ih =>
    rw [firstSome] at h
    cases hfa : f a with
    | some x =>
        rw [hfa] at h
        exact ⟨a, by simp, by rw [hfa]; exact h⟩
    | none =>
        rw [hfa] at h
        obtain ⟨c, hc, hcb⟩ := ih h
        exact ⟨c, by simp [hc], hcb⟩

theorem jsOrNull_idem (x : Option String) : jsOrNull (jsOrNull x) = jsOrNull x := by
  cases x with
  | none => rfl
  | some s => by_cases h : s = "" <;> simp [jsOrNull, h]

/-! ## The claims -/

/-- C2: for every message whose subject, plain body and HTML body are
strings (possibly empty), `parseLinkedInApplication` is total (it is a
Lean function, so it cannot raise) and returns the record with exactly
the six fields `name`, `title`, `location`, `expected_compensation`,
`project_id`, `screening_questions`, each of them a string or null,
each produced by the corresponding field extractor. -/
theorem extraction_totality (message : EmailMessage) :
    parseLinkedInApplication message =
      { name := extractName message.subject message.body (message.htmlBody.getD ""),
        title := extractJobTitle message.subject message.body (message.htmlBody.getD ""),
        location := extractLocation message.body (message.htmlBody.getD ""),
        expected_compensation := extractCompensation message.body (message.htmlBody.getD ""),
        project_id := extractProjectId message.body (message.htmlBody.getD "") message.subject,
        screening_questions :=
          extractScreeningQuestions message.body (message.htmlBody.getD "") } ∧
    ((parseLinkedInApplication message).name = none ∨
      ∃ v, (parseLinkedInApplication message).name = some v) ∧
    ((parseLinkedInApplication message).title = none ∨
      ∃ v, (parseLinkedInApplication message).title = some v) ∧
    ((parseLinkedInApplication message).location = none ∨
      ∃ v, (parseLinkedInApplication message).location = some v) ∧
    ((parseLinkedInApplication message).expected_compensation = none ∨
      ∃ v, (parseLinkedInApplication message).expected_compensation = some v) ∧
    ((parseLinkedInApplication message).project_id = none ∨
      ∃ v, (parseLinkedInApplication message).project_id = some v) ∧
    ((parseLinkedInApplication message).screening_questions = none ∨
      ∃ v, (parseLinkedInApplication message).screening_questions = some v) :=
  ⟨rfl, optionShape _, optionShape _, optionShape _, optionShape _, optionShape _,
    optionShape _⟩

/-- C4: a message whose sender matches the LinkedIn job-notification
allowlist (`jobs-listings@`, `jobs-noreply@` or `noreply@linkedin.com`)
is classified as an application regardless of its subject, bodies and
attachments — the sender check short-circuits before the exclusion
patterns are consulted. -/
theorem classifier_sender_allowlist (message : EmailMessage)
    (h : reTest fromLinkedInJobsRE (lowerStr message.fromAddr) = true) :
    isLinkedInApplication message = true := by
  unfold isLinkedInApplication
  simp [h]

/-- C4 witness: a message from `jobs-noreply@linkedin.com` whose
combined text matches a promotional exclusion pattern is still
classified as an application. -/
theorem classifier_sender_allowlist_witness :
    reTest fromLinkedInJobsRE (lowerStr "jobs-noreply@linkedin.com") = true ∧
    excludePatterns.any (fun pattern => reTest pattern
        ("linkedin premium upgrade now offer" ++ " " ++ "subscribe premium today" ++ " " ++ ""
          ++ " " ++ "jobs-noreply@linkedin.com")) = true ∧
    isLinkedInApplication
        ⟨"m1", "LinkedIn Premium upgrade now offer", "jobs-noreply@linkedin.com",
         "subscribe premium today", none, []⟩ = true :=
  ⟨by decide, by decide, classifier_sender_allowlist _ (by decide)⟩

/-- C7: in the contact-info merge of `processMessage`, an LLM-derived
email overrides the direct-scan email whenever the LLM stage returns a
non-null email (the stage normalizes every field with `|| null`, so a
returned email is non-empty), the direct-scan email is kept when the
LLM returns null, and the LLM-derived `mobile_number` and
`linkedin_url` are used as-is. -/
theorem contact_merge_llm_precedence (raw : RawContactInfo) (applicantEmail : String) :
    ((validateContactInfo raw).email = none →
        (mergeContactInfo (validateContactInfo raw) applicantEmail).email = applicantEmail) ∧
    (∀ e, (validateContactInfo raw).email = some e →
        (mergeContactInfo (validateContactInfo raw) applicantEmail).email = e) ∧
    (mergeContactInfo (validateContactInfo raw) applicantEmail).mobile_number
      = (validateContactInfo raw).mobile_number ∧
    (mergeContactInfo (validateContactInfo raw) applicantEmail).linkedin_url
      = (validateContactInfo raw).linkedin_url := by
  refine ⟨?_, ?_, ?_, ?_⟩
  · intro h
    simp [mergeContactInfo, h]
  · intro e h
    have he : e ≠ "" := by
      cases hr : raw.email with
      | none => simp [validateContactInfo, jsOrNull, hr] at h
      | some s =>
          by_cases hs : s = ""
          · simp [validateContactInfo, jsOrNull, hr, hs] at h
          · have : s = e := by simpa [validateContactInfo, jsOrNull, hr, hs] using h
            exact this ▸ hs
    simp [mergeContactInfo, h, he]
  · simp [mergeContactInfo, validateContactInfo, jsOrNull_idem]
  · simp [mergeContactInfo, validateContactInfo, jsOrNull_idem]

/-- C7 witness: direct scan found `candidate@gmail.com`; an LLM result
with email `other@site.com` overrides it, an all-null LLM result keeps
it. -/
theorem contact_merge_llm_precedence_witness :
    (mergeContactInfo (validateContactInfo ⟨none, some "other@site.com", none⟩)
        "candidate@gmail.com").email = "other@site.com" ∧
    (mergeContactInfo (validateContactInfo ⟨none, none, none⟩)
        "candidate@gmail.com").email = "candidate@gmail.com" :=
  ⟨(contact_merge_llm_precedence ⟨none, some "other@site.com", none⟩
      "candidate@gmail.com").2.1 "other@site.com" rfl,
   (contact_merge_llm_precedence ⟨none, none, none⟩ "candidate@gmail.com").1 rfl⟩

/-- C10: ledger operations never propagate errors: a failed lookup
makes `isProcessed` return false (the message stays eligible for
processing, it is not reported as already processed), a failed write
makes `markProcessed` return normally with the ledger unchanged, and
the message-level error path of `processMessage` is triggered only by
a persistence failure, never by a ledger failure. -/
theorem ledger_errors_swallowed :
    (∀ db messageId, isProcessed db false messageId = false) ∧
    (∀ db messageId status now metadata,
        markProcessed false db messageId status now metadata = db) ∧
    (∀ env db msg e, (processMessage env db msg).result = Except.error e →
        env.persistOk = false) ∧
    (∀ env db msg, env.lookupOk = false →
        (processMessage env db msg).result ≠ Except.ok PMOutcome.skippedAlready) := by
  refine ⟨fun _ _ => rfl, fun _ _ _ _ _ => rfl, ?_, ?_⟩
  · intro env db msg e h
    unfold processMessage at h
    repeat' split at h
    all_goals simp_all
  · intro env db msg hl h
    unfold processMessage at h
    rw [hl] at h
    repeat' split at h
    all_goals simp_all [isProcessed, readSingle]

/-- C10 witness: with a failing ledger lookup and a failing ledger
write but successful persistence, `processMessage` still does not take
the error path (its result is a success, and the theorem applies to
show an error result would force a persistence failure). -/
theorem ledger_errors_swallowed_witness :
    isProcessed [] false "m1" = false ∧
    markProcessed false [] "m1" "success" 0 none = [] ∧
    (∀ e, (processMessage
        ⟨false, false, true, false, some "John Smith", some "john@example.org",
         none, true, false, 0⟩
        [] ⟨"m1", "s"⟩).result = Except.error e → False) :=
  ⟨ledger_errors_swallowed.1 [] "m1",
   ledger_errors_swallowed.2.1 [] "m1" "success" 0 none,
   fun e h => by
     have := ledger_errors_swallowed.2.2.1 _ [] ⟨"m1", "s"⟩ e h
     simp at this⟩


/-! ## Ledger lemmas -/

theorem rowsFor_append (a b : List LedgerRow) (messageId : String) :
    rowsFor (a ++ b) messageId = rowsFor a messageId ++ rowsFor b messageId := by
  simp [rowsFor, List.filter_append]

theorem rowsFor_map_upsert (db : List LedgerRow) (row : LedgerRow) (k : String) :
    rowsFor (db.map fun r => if r.message_id == row.message_id then row else r) k
      = (rowsFor db k).map fun r => if r.message_id == row.message_id then row else r := by
  induction db with
  | nil => rfl
  | cons r t ih =>
    have hkey : ((if r.message_id == row.message_id then row else r).message_id == k)
        = (r.message_id == k) := by
      by_cases h : (r.message_id == row.message_id) = true
      · rw [if_pos h, ← eq_of_beq h]
      · rw [if_neg h]
    simp only [rowsFor, List.map_cons, List.filter_cons] at ih ⊢
    rw [hkey]
    by_cases hk : (r.message_id == k) = true
    · simp only [if_pos hk, List.map_cons]
      rw [ih]
    · simp only [if_neg hk]
      exact ih

theorem rowsFor_eq_nil_of_any_false (db : List LedgerRow) (k : String)
    (h : db.any (fun r => r.message_id == k) = false) : rowsFor db k = [] := by
  rw [List.any_eq_false] at h
  rw [rowsFor, List.filter_eq_nil_iff]
  exact h

theorem rowsFor_ne_nil_of_any_true (db : List LedgerRow) (k : String)
    (h : db.any (fun r => r.message_id == k) = true) : rowsFor db k ≠ [] := by
  induction db with
  | nil => simp at h
  | cons r t ih =>
    simp only [List.any_cons, Bool.or_eq_true_iff] at h
    by_cases hr : r.message_id == k
    · simp [rowsFor, List.filter_cons, hr]
    · rcases h with h | h
      · exact absurd h hr
      · simpa [rowsFor, List.filter_cons, hr] using ih h

theorem rowsFor_members (db : List LedgerRow) (k : String) (r : LedgerRow)
    (h : r ∈ rowsFor db k) : r.message_id == k := by
  simp only [rowsFor, List.mem_filter] at h
  exact h.2

theorem rowsFor_singleton (row : LedgerRow) (k : String) :
    rowsFor [row] k = if (row.message_id == k) = true then [row] else [] := by
  rw [rowsFor, List.filter_cons]
  rfl

theorem oneRow_upsert (db : List LedgerRow) (row : LedgerRow) (h : OneRowPerId db) :
    OneRowPerId (upsertRow db row) := by
  intro k
  unfold upsertRow
  split
  · rw [rowsFor_map_upsert, List.length_map]
    exact h k
  · next hany =>
    rw [rowsFor_append, rowsFor_singleton]
    by_cases hk : (row.message_id == k) = true
    · have hrow : row.message_id = k := eq_of_beq hk
      have hdb : db.any (fun r => r.message_id == k) = false := by
        rw [← hrow]
        simpa using hany
      rw [rowsFor_eq_nil_of_any_false db k hdb, if_pos hk]
      simp
    · rw [if_neg hk, List.append_nil]
      exact h k

theorem rowsFor_upsert_self (db : List LedgerRow) (row : LedgerRow) (h : OneRowPerId db) :
    rowsFor (upsertRow db row) row.message_id = [row] := by
  unfold upsertRow
  split
  · next hany =>
    rw [rowsFor_map_upsert]
    have hne := rowsFor_ne_nil_of_any_true db row.message_id (by simpa using hany)
    have hle := h row.message_id
    cases hx : rowsFor db row.message_id with
    | nil => exact absurd hx hne
    | cons r t =>
      cases t with
      | nil =>
        have hr : (r.message_id == row.message_id) = true :=
          rowsFor_members db row.message_id r (by rw [hx]; exact List.mem_cons_self r [])
        rw [List.map_cons, List.map_nil, if_pos hr]
      | cons r₂ t₂ =>
        rw [hx] at hle
        simp at hle
  · next hany =>
    rw [rowsFor_append]
    have hdb : db.any (fun r => r.message_id == row.message_id) = false := by simpa using hany
    rw [rowsFor_eq_nil_of_any_false db row.message_id hdb, rowsFor_singleton,
        if_pos (by simp)]
    rfl

theorem hasRow_upsert_self (db : List LedgerRow) (row : LedgerRow) :
    hasRow (upsertRow db row) row.message_id = true := by
  unfold upsertRow
  split
  · next hany =>
    rw [List.any_eq_true] at hany
    obtain ⟨r, hr, hkey⟩ := hany
    unfold hasRow
    rw [List.any_eq_true]
    refine ⟨row, ?_, by simp⟩
    rw [List.mem_map]
    exact ⟨r, hr, by simp [hkey]⟩
  · unfold hasRow
    simp

theorem hasRow_upsert_mono (db : List LedgerRow) (row : LedgerRow) (otherId : String)
    (h : hasRow db otherId = true) : hasRow (upsertRow db row) otherId = true := by
  unfold hasRow at h ⊢
  rw [List.any_eq_true] at h
  obtain ⟨r, hr, hkey⟩ := h
  unfold upsertRow
  split
  · rw [List.any_eq_true]
    by_cases hm : r.message_id == row.message_id
    · refine ⟨row, ?_, ?_⟩
      · rw [List.mem_map]; exact ⟨r, hr, by simp [hm]⟩
      · have : r.message_id = row.message_id := eq_of_beq hm
        rw [← this]; exact hkey
    · refine ⟨r, ?_, hkey⟩
      rw [List.mem_map]; exact ⟨r, hr, by simp [hm]⟩
  · rw [List.any_eq_true]
    exact ⟨r, List.mem_append_left _ hr, hkey⟩

theorem hasRow_mark_true (db : List LedgerRow) (messageId status : String) (now : Nat)
    (metadata : Option DiagMeta) :
    hasRow (markProcessed true db messageId status now metadata) messageId = true :=
  hasRow_upsert_self db (mkRow messageId status now metadata)

theorem isProcessed_true_hasRow (db : List LedgerRow) (messageId : String)
    (h : isProcessed db true messageId = true) : hasRow db messageId = true := by
  unfold isProcessed readSingle at h
  simp only [if_true] at h
  cases hf : db.find? (fun r => r.message_id == messageId) with
  | none => rw [hf] at h; simp at h
  | some r =>
    have hr := List.mem_of_find?_eq_some hf
    have hp := List.find?_some hf
    unfold hasRow
    rw [List.any_eq_true]
    exact ⟨r, hr, hp⟩

theorem hasRow_isProcessed (db : List LedgerRow) (messageId : String)
    (h : hasRow db messageId = true) : isProcessed db true messageId = true := by
  unfold hasRow at h
  rw [List.any_eq_true] at h
  have : (db.find? (fun r => r.message_id == messageId)).isSome := by
    rw [List.find?_isSome]
    obtain ⟨r, hr, hp⟩ := h
    exact ⟨r, hr, hp⟩
  unfold isProcessed readSingle
  simp only [if_true]
  cases hf : db.find? (fun r => r.message_id == messageId) with
  | none => rw [hf] at this; simp at this
  | some r => rfl

/-- C8: the ledger holds at most one row per message id and every
`markProcessed` call preserves this; two `markProcessed` calls for the
same id leave exactly one row carrying the later call's status,
timestamp and metadata (upsert keyed on `message_id`, last writer
wins); `markProcessed` never removes a row of any id; and the
retention sweep `cleanupOldRecords` deletes exactly the rows older
than the cutoff. -/
theorem ledger_upsert_last_writer_wins :
    (∀ writeOk db messageId status now metadata, OneRowPerId db →
        OneRowPerId (markProcessed writeOk db messageId status now metadata)) ∧
    (∀ db messageId status1 status2 now1 now2 m1 m2, OneRowPerId db →
        rowsFor (markProcessed true (markProcessed true db messageId status1 now1 m1)
            messageId status2 now2 m2) messageId
          = [mkRow messageId status2 now2 m2]) ∧
    (∀ writeOk db messageId status now metadata otherId, hasRow db otherId = true →
        hasRow (markProcessed writeOk db messageId status now metadata) otherId = true) ∧
    (∀ db cutoff row, row ∈ cleanupOldRecords db cutoff ↔
        (row ∈ db ∧ ¬(row.processed_at < cutoff))) := by
  refine ⟨?_, ?_, ?_, ?_⟩
  · intro writeOk db messageId status now metadata h
    cases writeOk with
    | false => exact h
    | true => exact oneRow_upsert db _ h
  · intro db messageId status1 status2 now1 now2 m1 m2 h
    have h1 : OneRowPerId (markProcessed true db messageId status1 now1 m1) :=
      oneRow_upsert db _ h
    have := rowsFor_upsert_self (markProcessed true db messageId status1 now1 m1)
      (mkRow messageId status2 now2 m2) h1
    simpa [markProcessed, mkRow] using this
  · intro writeOk db messageId status now metadata otherId h
    cases writeOk with
    | false => exact h
    | true => exact hasRow_upsert_mono db _ otherId h
  · intro db cutoff row
    simp [cleanupOldRecords, List.mem_filter]

/-- C8 witness: concrete two-write scenario on an initially empty
ledger. -/
theorem ledger_upsert_last_writer_wins_witness :
    rowsFor (markProcessed true (markProcessed true [] "m1" "error" 1 none)
        "m1" "success" 2 none) "m1" = [mkRow "m1" "success" 2 none] ∧
    (mkRow "m1" "success" 2 none).status = "success" :=
  ⟨ledger_upsert_last_writer_wins.2.1 [] "m1" "error" "success" 1 2 none none
      (fun _ => by simp [rowsFor]),
   rfl⟩


/-! ## Orchestrator lemmas -/

theorem processMessage_records_id (env : PMEnv) (db : List LedgerRow) (msg : OrchMessage)
    (hw : env.writeOk = true) :
    hasRow (processMessage env db msg).db msg.id = true := by
  unfold processMessage
  split
  · next hproc =>
      cases hl : env.lookupOk with
      | false =>
          rw [hl] at hproc
          exact absurd hproc (by simp [isProcessed, readSingle])
      | true =>
          rw [hl] at hproc
          exact isProcessed_true_hasRow db msg.id hproc
  · repeat' split
    all_goals (rw [hw]; exact hasRow_mark_true db msg.id _ env.now _)

/-- C1: once a first `processMessage` run has recorded a terminal
status for a message id (any outcome — skipped for either reason,
success, or error; the id may also already have been present), a
second run on the same id sees `isProcessed` true, skips the message,
leaves the ledger unchanged, and performs no persistence writes. -/
theorem orchestrator_idempotent (env1 env2 : PMEnv) (db : List LedgerRow) (msg : OrchMessage)
    (h1 : env1.writeOk = true) (h2 : env2.lookupOk = true) :
    isProcessed (processMessage env1 db msg).db env2.lookupOk msg.id = true ∧
    processMessage env2 (processMessage env1 db msg).db msg =
      { db := (processMessage env1 db msg).db, sinkWrites := [],
        result := .ok .skippedAlready } := by
  have hrow := processMessage_records_id env1 db msg h1
  have hproc : isProcessed (processMessage env1 db msg).db env2.lookupOk msg.id = true := by
    rw [h2]
    exact hasRow_isProcessed _ _ hrow
  refine ⟨hproc, ?_⟩
  generalize hgen : (processMessage env1 db msg).db = db1 at hproc ⊢
  unfold processMessage
  rw [if_pos hproc]

/-- C1 witness: a successful first run on an empty ledger makes the
second run a no-op. -/
theorem orchestrator_idempotent_witness :
    isProcessed
        (processMessage
          ⟨true, true, true, false, some "John Smith", some "john@example.org", none,
            true, false, 0⟩ [] ⟨"m1", "s"⟩).db true "m1" = true ∧
    processMessage
        ⟨true, true, true, false, some "John Smith", some "john@example.org", none,
          true, false, 0⟩
        (processMessage
          ⟨true, true, true, false, some "John Smith", some "john@example.org", none,
            true, false, 0⟩ [] ⟨"m1", "s"⟩).db ⟨"m1", "s"⟩ =
      { db := (processMessage
          ⟨true, true, true, false, some "John Smith", some "john@example.org", none,
            true, false, 0⟩ [] ⟨"m1", "s"⟩).db,
        sinkWrites := [], result := .ok .skippedAlready } :=
  orchestrator_idempotent
    ⟨true, true, true, false, some "John Smith", some "john@example.org", none,
      true, false, 0⟩
    ⟨true, true, true, false, some "John Smith", some "john@example.org", none,
      true, false, 0⟩ [] ⟨"m1", "s"⟩ rfl rfl

/-- C9: the per-message loop attempts every message of the batch in
order regardless of per-message exceptions (no message's failure
aborts the loop), and whenever `processMessage` ends in a thrown
error, the ledger write it performed (when the ledger is reachable)
is exactly the `error`-status mark carrying the exception message as
diagnostic metadata. -/
theorem message_errors_isolated :
    (∀ envOf db msgs, (processEmails envOf db msgs).2.1 = msgs.map OrchMessage.id) ∧
    (∀ env db msg e, env.writeOk = true →
        (processMessage env db msg).result = Except.error e →
        (processMessage env db msg).db
          = markProcessed true db msg.id "error" env.now
              (some ⟨msg.subject, none, some e⟩)) := by
  constructor
  · intro envOf db msgs
    induction msgs generalizing db with
    | nil => rfl
    | cons m rest ih => simp [processEmails, ih]
  · intro env db msg e hw h
    unfold processMessage at h ⊢
    repeat' split at h
    all_goals simp_all

/-- C9 witness: a batch of two messages where the first one's
persistence throws: both messages are attempted, and the failing
message's ledger row is the error mark. -/
theorem message_errors_isolated_witness :
    (processEmails
        (fun _ => ⟨true, true, true, false, some "John Smith", some "john@example.org",
          none, false, false, 0⟩) [] [⟨"m1", "s1"⟩, ⟨"m2", "s2"⟩]).2.1 = ["m1", "m2"] ∧
    (processMessage
        ⟨true, true, true, false, some "John Smith", some "john@example.org",
          none, false, false, 0⟩ [] ⟨"m1", "s1"⟩).db
      = markProcessed true [] "m1" "error" 0 (some ⟨"s1", none, some "persist failed"⟩) :=
  ⟨message_errors_isolated.1 _ [] [⟨"m1", "s1"⟩, ⟨"m2", "s2"⟩],
   message_errors_isolated.2 _ [] ⟨"m1", "s1"⟩ "persist failed" rfl (by rfl)⟩


/-! ## Compensation and location claims -/

/-- C5: `extractCompensation` rejects non-positive and out-of-range
figures — any candidate whose parsed decimal value is `0` or at least
`1000` is rejected by `cleanCompensation` (so an input whose only
matched figure is such a value yields `null`): concretely,
`"CTC 0 LPA"` and `"CTC 5000 LPA"` yield `null` while
`"Current CTC 12 LPA"` yields `"12"`. -/
theorem compensation_bounds :
    (∀ s m k, parseFloatParts (compCleaned s) = some (m, k) →
        (partsVal (m, k) = 0 ∨ 1000 ≤ partsVal (m, k)) → cleanCompensation s = none) ∧
    extractCompensation "CTC 0 LPA" "" = none ∧
    extractCompensation "CTC 5000 LPA" "" = none ∧
    extractCompensation "Current CTC 12 LPA" "" = some "12" := by
  refine ⟨?_, by decide, by decide, by decide⟩
  intro s m k hp hval
  have hpow : (0 : ℚ) < 10 ^ k := by positivity
  have hcond : ¬(0 < m ∧ m < 1000 * 10 ^ k) := by
    rcases hval with h0 | hge
    · have hm : (m : ℚ) = 0 := by
        rw [partsVal, div_eq_zero_iff] at h0
        rcases h0 with h0 | h0
        · exact h0
        · exact absurd h0 (ne_of_gt hpow)
      have : m = 0 := by exact_mod_cast hm
      rintro ⟨hmpos, -⟩
      omega
    · rw [partsVal, le_div_iff₀ hpow] at hge
      have : ((1000 * 10 ^ k : Nat) : ℚ) ≤ (m : ℚ) := by push_cast; linarith
      have hnat : 1000 * 10 ^ k ≤ m := by exact_mod_cast this
      rintro ⟨-, hlt⟩
      omega
  unfold cleanCompensation
  rw [hp]
  show (if 0 < m ∧ m < 1000 * 10 ^ k then some (compCleaned s) else none) = none
  rw [if_neg hcond]

/-- C5 witness: applying the bound lemma at the concrete rejected
figure `1000` (value exactly 1000), plus the concrete zero case. -/
theorem compensation_bounds_witness :
    cleanCompensation "1000" = none ∧ extractCompensation "CTC 0 LPA" "" = none :=
  ⟨compensation_bounds.1 "1000" 1000 0 (by decide)
      (Or.inr (by norm_num [partsVal])),
   compensation_bounds.2.1⟩

theorem cleanLocation_gate (s : String) :
    cleanLocation s = "" ∨ reTest jobTermPatternRE (cleanLocation s) = false := by
  unfold cleanLocation
  by_cases h0 : s = ""
  · rw [if_pos h0]
    exact Or.inl rfl
  · rw [if_neg h0]
    by_cases ht : reTest jobTermPatternRE (locCleaned s) = true
    · rw [if_pos ht]
      exact Or.inl rfl
    · rw [if_neg ht]
      exact Or.inr (by simpa using ht)

theorem isValidLocation_empty : isValidLocation "" = false := rfl

/-- C6: `extractLocation` never returns a string matching the
job/skill vocabulary gate (`jobTermPattern`): every accepted location
passed through `cleanLocation`, which returns the empty string (and
empty strings fail validation) whenever the cleaned candidate still
contains such a term. -/
theorem location_rejects_job_terms (emailBody htmlBody location : String)
    (h : extractLocation emailBody htmlBody = some location) :
    reTest jobTermPatternRE location = false := by
  unfold extractLocation at h
  obtain ⟨source, -, hsrc⟩ := firstSome_eq_some h
  obtain ⟨pattern, -, hpat⟩ := firstSome_eq_some hsrc
  cases hm : matchCapture1 pattern source with
  | none => rw [hm] at hpat; simp at hpat
  | some raw =>
    rw [hm] at hpat
    simp only [] at hpat
    by_cases hvalid : isValidLocation (cleanLocation (trimStr raw)) = true
    · rw [if_pos hvalid] at hpat
      have hloc : cleanLocation (trimStr raw) = location := by
        exact Option.some.inj hpat
      rcases cleanLocation_gate (trimStr raw) with hemp | hok
      · rw [hemp] at hvalid
        rw [isValidLocation_empty] at hvalid
        exact absurd hvalid (by simp)
      · rw [hloc] at hok
        exact hok
    · rw [if_neg hvalid] at hpat
      simp at hpat

/-- C6 witness: a three-part location is accepted and contains no
job/skill term. -/
theorem location_rejects_job_terms_witness :
    extractLocation "Bengaluru, Karnataka, India" "" = some "Bengaluru, Karnataka, India" ∧
    reTest jobTermPatternRE "Bengaluru, Karnataka, India" = false := by
  have h : extractLocation "Bengaluru, Karnataka, India" ""
      = some "Bengaluru, Karnataka, India" := by decide
  exact ⟨h, location_rejects_job_terms "Bengaluru, Karnataka, India" ""
    "Bengaluru, Karnataka, India" h⟩

/-! ## The extractor iteration-order claim -/

/-- C3 counterexample: the claimed priority order (subject first,
pattern-major) is violated by `extractProjectId`: with a valid id in
the subject and a different valid id in the HTML body, the HTML-body
id wins — the sources are `[htmlBody, emailBody, subject]`, iterated
source-major, so the subject is consulted last, not first. -/
theorem extractor_order_counterexample :
    extractProjectId "" "jobId:654321" "jobId:123456" = some "654321" ∧
    extractProjectId "" "" "jobId:123456" = some "123456" :=
  ⟨by decide, by decide⟩

theorem firstSome_three (a1 a2 a3 : α) (f : α → Option β) :
    firstSome [a1, a2, a3] f = orElseO (f a1) (orElseO (f a2) (f a3)) := by
  cases h1 : f a1 <;> cases h2 : f a2 <;> cases h3 : f a3 <;>
    simp [firstSome, orElseO, h1, h2, h3]

theorem firstSome_four (a1 a2 a3 a4 : α) (f : α → Option β) :
    firstSome [a1, a2, a3, a4] f
      = orElseO (f a1) (orElseO (f a2) (orElseO (f a3) (f a4))) := by
  cases h1 : f a1 <;> cases h2 : f a2 <;> cases h3 : f a3 <;> cases h4 : f a4 <;>
    simp [firstSome, orElseO, h1, h2, h3, h4]

/-- C3 amended: the extractors are first-match-wins over an ordered
pattern list inside each source, but the source iteration is
source-major with per-field source orders: `extractProjectId` tries
the HTML body, then the plain body, then the subject;
`extractLocation` tries the cleaned plain body, the cleaned HTML body,
the raw plain body, then the raw HTML body (never the subject).  (Only
`extractName`/`extractJobTitle` iterate pattern-major over subject,
body, HTML.) -/
theorem extractor_order_amended (emailBody htmlBody subject : String) :
    extractProjectId emailBody htmlBody subject =
      orElseO (projectIdFromSource htmlBody)
        (orElseO (projectIdFromSource emailBody) (projectIdFromSource subject)) ∧
    extractLocation emailBody htmlBody =
      orElseO (locationFromSource (cleanTextForParsing emailBody))
        (orElseO (locationFromSource (cleanTextForParsing htmlBody))
          (orElseO (locationFromSource emailBody) (locationFromSource htmlBody))) := by
  constructor
  · rw [extractProjectId, firstSome_three]
    rfl
  · rw [extractLocation]
    rw [firstSome_four]
    rfl

end AP
